import Mathlib

/-!
# Books service (`main.go`): request handlers over a relational store

A shallow embedding of `main.go`.  The handlers are translated one by one; the
three libraries they call are modelled by what they do to the values the
handlers see:

* `encoding/json`: a request body is the JSON value the decoder reads from it
  (`none` when the text holds no JSON value); decoding into `User` / `Book`
  follows the struct tags; encoding maps a nil slice to `null`.
* `gin`: the response writer (pending status, header map, flushed header block,
  body writes), `Context.JSON`, `Context.Status`, `Context.AbortWithStatus`,
  `Context.BindJSON`, `Context.Param`, and `c.Next()` as a call of the rest of
  the chain.
* `database/sql` over PostgreSQL: the two tables of `createUsersTable` and
  `createBooksTable` (`SERIAL PRIMARY KEY` ids, `VARCHAR(200)`, `TEXT`), the four
  statements the handlers issue, and an environment record `Env` that says
  whether the store fails on this request.

`log.Fatal` ends the process: a handler run is an `Outcome`, either `returned`
or `exited`.
-/

namespace Books

/-! ## JSON values -/

/-- JSON values.  A number literal is `int` when it is written as an optional
minus sign followed by digits, and `float` (kept as text) when it has a
fraction or an exponent. -/
inductive Json where
  | null
  | bool (b : Bool)
  | int (n : Int)
  | float (lit : String)
  | str (s : String)
  | arr (xs : List Json)
  | obj (kvs : List (String × Json))

/-! ## Records (main.go 14-23) -/

/-- `type User struct` (main.go 14-17). -/
structure User where
  Id : Int
  Name : String
deriving DecidableEq, Repr

/-- `type Book struct` (main.go 19-23). -/
structure Book where
  Id : Int
  Title : String
  Author : String
deriving DecidableEq, Repr

/-- `json.Marshal` of a `User`: the fields in declaration order under their tags. -/
def User.toJson (u : User) : Json :=
  .obj [("id", .int u.Id), ("name", .str u.Name)]

/-- `json.Marshal` of a `Book`: the fields in declaration order under their tags. -/
def Book.toJson (b : Book) : Json :=
  .obj [("id", .int b.Id), ("title", .str b.Title), ("author", .str b.Author)]

/-- `gin.H` with the single key `message`, as every fixed reply of the handlers is. -/
def H (message : String) : Json :=
  .obj [("message", .str message)]

/-- A Go slice: the nil slice, or a slice holding elements.  `var books []Book`
declares the nil slice. -/
inductive Slice (α : Type) where
  | nil
  | of (elems : List α)
deriving DecidableEq, Repr

/-- The elements of a slice; the nil slice has none. -/
def Slice.toList {α : Type} : Slice α → List α
  | .nil => []
  | .of xs => xs

/-- Go `len`. -/
def Slice.len {α : Type} (s : Slice α) : Nat := s.toList.length

/-- Go `append(s, x)`: the result is never the nil slice. -/
def Slice.append {α : Type} (s : Slice α) (x : α) : Slice α :=
  .of (s.toList ++ [x])

/-- `json.Marshal` of a `[]Book`: a nil slice encodes as `null`, any other slice
as the array of its encoded elements. -/
def marshalBooks : Slice Book → Json
  | .nil => .null
  | .of bs => .arr (bs.map Book.toJson)

/-! ## Decoding a request body (`encoding/json` into the tagged structs) -/

/-- Field lookup by key: a key names a field when it equals the tag up to case.
The tags used here (`id`, `name`, `title`, `author`) are lower-case ASCII and
contain no letter with a non-ASCII case variant. -/
def keyMatches (key tag : String) : Bool :=
  key.data.map Char.toLower == tag.data

/-- Store a JSON value into an `int` field: `null` leaves the field as it is, an
integer literal in the 64-bit range is stored, anything else is a type error. -/
def setInt (v : Json) (cur : Int) : Except String Int :=
  match v with
  | .null => .ok cur
  | .int n =>
    if -9223372036854775808 ≤ n ∧ n ≤ 9223372036854775807 then .ok n
    else .error "json: cannot unmarshal number into Go struct field of type int"
  | _ => .error "json: cannot unmarshal value into Go struct field of type int"

/-- Store a JSON value into a `string` field: `null` leaves the field as it is, a
string is stored, anything else is a type error. -/
def setString (v : Json) (cur : String) : Except String String :=
  match v with
  | .null => .ok cur
  | .str s => .ok s
  | _ => .error "json: cannot unmarshal value into Go struct field of type string"

/-- Decode the members of an object into a `User`, in order; unknown keys are
skipped, a later member overrides an earlier one. -/
def decodeUserFields : List (String × Json) → User → Except String User
  | [], u => .ok u
  | (k, v) :: rest, u =>
    if keyMatches k "id" then
      match setInt v u.Id with
      | .error e => .error e
      | .ok n => decodeUserFields rest { u with Id := n }
    else if keyMatches k "name" then
      match setString v u.Name with
      | .error e => .error e
      | .ok x => decodeUserFields rest { u with Name := x }
    else decodeUserFields rest u

/-- Decode the members of an object into a `Book`, in order. -/
def decodeBookFields : List (String × Json) → Book → Except String Book
  | [], b => .ok b
  | (k, v) :: rest, b =>
    if keyMatches k "id" then
      match setInt v b.Id with
      | .error e => .error e
      | .ok n => decodeBookFields rest { b with Id := n }
    else if keyMatches k "title" then
      match setString v b.Title with
      | .error e => .error e
      | .ok x => decodeBookFields rest { b with Title := x }
    else if keyMatches k "author" then
      match setString v b.Author with
      | .error e => .error e
      | .ok x => decodeBookFields rest { b with Author := x }
    else decodeBookFields rest b

/-- Decode a JSON value into `var user User` (all fields zero). -/
def unmarshalUser (j : Json) : Except String User :=
  match j with
  | .null => .ok ⟨0, ""⟩
  | .obj kvs => decodeUserFields kvs ⟨0, ""⟩
  | _ => .error "json: cannot unmarshal value into Go value of type main.User"

/-- Decode a JSON value into `var book Book` (all fields zero). -/
def unmarshalBook (j : Json) : Except String Book :=
  match j with
  | .null => .ok ⟨0, "", ""⟩
  | .obj kvs => decodeBookFields kvs ⟨0, "", ""⟩
  | _ => .error "json: cannot unmarshal value into Go value of type main.Book"

/-! ## The relational store (schema: main.go 50-74) -/

/-- A row of `users (id SERIAL PRIMARY KEY, name VARCHAR(200))`. -/
structure UserRow where
  id : Int
  name : Option String
deriving DecidableEq, Repr

/-- A row of `books (id SERIAL PRIMARY KEY, title TEXT, author TEXT)`. -/
structure BookRow where
  id : Int
  title : Option String
  author : Option String
deriving DecidableEq, Repr

/-- The two tables, each with the last value its `SERIAL` sequence handed out.
Rows are kept in table order. -/
structure Store where
  usersSeq : Nat
  users : List UserRow
  booksSeq : Nat
  books : List BookRow
deriving DecidableEq, Repr

/-- What the environment does to the store on one request: `execErr` is the error
the store reports for the statement (lost connection, missing table, ...),
`iterErr` ends the iteration of a result set after that many rows with that
error. -/
structure Env where
  execErr : Option String
  iterErr : Option (Nat × String)
deriving DecidableEq, Repr

/-- The largest `integer` (the type of a `SERIAL` column). -/
def int4Max : Nat := 2147483647

/-- The next value of a `SERIAL` sequence; it fails once the column type is
exhausted. -/
def nextval (seq : Nat) : Except String Nat :=
  if seq < int4Max then .ok (seq + 1)
  else .error "nextval: reached maximum value of sequence"

/-- Assignment to a `VARCHAR(n)` column: a longer value is an error unless the
excess characters are all spaces, in which case it is cut to `n` characters. -/
def varchar (n : Nat) (s : String) : Except String String :=
  if s.data.length ≤ n then .ok s
  else if (s.data.drop n).all (fun c => c == ' ') then .ok (String.mk (s.data.take n))
  else .error "value too long for type character varying"

/-- The statement `INSERT INTO users (name) VALUES ($1) RETURNING id, name`
(main.go 89-92).  A sequence value that was drawn stays drawn when the
statement fails afterwards. -/
def Store.insertUsers (db : Store) (env : Env) (name : String) :
    Except String (Int × String) × Store :=
  match env.execErr with
  | some e => (.error e, db)
  | none =>
    match nextval db.usersSeq with
    | .error e => (.error e, db)
    | .ok id =>
      match varchar 200 name with
      | .error e => (.error e, { db with usersSeq := id })
      | .ok stored =>
        if db.users.any (fun r => r.id == (id : Int)) then
          (.error "duplicate key value violates unique constraint", { db with usersSeq := id })
        else
          (.ok ((id : Int), stored),
            { db with usersSeq := id, users := db.users ++ [⟨(id : Int), some stored⟩] })

/-- The statement `INSERT INTO books (title, author) VALUES ($1, $2) RETURNING id`
(main.go 123-126). -/
def Store.insertBooks (db : Store) (env : Env) (title author : String) :
    Except String Int × Store :=
  match env.execErr with
  | some e => (.error e, db)
  | none =>
    match nextval db.booksSeq with
    | .error e => (.error e, db)
    | .ok id =>
      if db.books.any (fun r => r.id == (id : Int)) then
        (.error "duplicate key value violates unique constraint", { db with booksSeq := id })
      else
        (.ok (id : Int),
          { db with booksSeq := id, books := db.books ++ [⟨(id : Int), some title, some author⟩] })

/-- The result set of a query as the handler iterates it: the rows `Next` still
delivers, and what `Err` reports once `Next` has returned false. -/
structure Rows where
  pending : List BookRow
  err : Option String
deriving DecidableEq, Repr

/-- The statement `SELECT * FROM books` (main.go 144). -/
def Store.selectBooks (db : Store) (env : Env) : Except String Rows :=
  match env.execErr with
  | some e => .error e
  | none =>
    match env.iterErr with
    | none => .ok ⟨db.books, none⟩
    | some (k, e) => .ok ⟨db.books.take k, some e⟩

/-- Read a run of decimal digits as a natural number, most significant first. -/
def digitsValue : List Char → Nat → Option Nat
  | [], acc => some acc
  | c :: cs, acc =>
    if c.isDigit then digitsValue cs (acc * 10 + (c.toNat - 48)) else none

/-- Blank characters the integer input routine skips. -/
def isBlank (c : Char) : Bool :=
  c == ' ' || c == '\t' || c == '\n' || c == '\r' || c.toNat == 11 || c.toNat == 12

/-- Text to `integer`, as the store reads a text parameter compared with an
`integer` column: blanks around, an optional sign, at least one decimal digit,
and the value within the 32-bit range. -/
def int4in (s : String) : Option Int :=
  let body := ((s.data.dropWhile isBlank).reverse.dropWhile isBlank).reverse
  let signed : Bool × List Char :=
    match body with
    | '-' :: ds => (true, ds)
    | '+' :: ds => (false, ds)
    | ds => (false, ds)
  if signed.2.isEmpty then none
  else
    match digitsValue signed.2 0 with
    | none => none
    | some n =>
      let v : Int := if signed.1 then -(n : Int) else (n : Int)
      if -2147483648 ≤ v ∧ v ≤ (int4Max : Int) then some v else none

/-- The statement `DELETE FROM books WHERE id=$1` with a text parameter
(main.go 195-198): every row with that id goes; no row matching is no error. -/
def Store.deleteBooks (db : Store) (env : Env) (param : String) :
    Except String Unit × Store :=
  match env.execErr with
  | some e => (.error e, db)
  | none =>
    match int4in param with
    | none => (.error "invalid input syntax for type integer", db)
    | some i => (.ok (), { db with books := db.books.filter (fun r => r.id != i) })

/-! ## The response writer and the request context (`gin`) -/

/-- A header map with one value per key. -/
abbrev Header := List (String × String)

/-- `Header.Get`. -/
def Header.Get (h : Header) (key : String) : Option String :=
  (h.find? (fun p => p.1 == key)).map (fun p => p.2)

/-- `Header.Set`: the value replaces any value the key had. -/
def Header.Set (h : Header) (key value : String) : Header :=
  h.filter (fun p => p.1 != key) ++ [(key, value)]

/-- The response writer of a request: the header map, the pending status
(200 until set), the status line and header block once they are flushed
(`sent`), and the values written to the body, in order. -/
structure ResponseWriter where
  header : Header
  status : Nat
  sent : Option (Nat × Header)
  body : List Json

/-- `WriteHeader(code)`: sets the pending status; it has no effect once the header
block is flushed. -/
def ResponseWriter.WriteHeader (w : ResponseWriter) (code : Nat) : ResponseWriter :=
  if 0 < code ∧ w.status ≠ code then
    if w.sent.isSome then w else { w with status := code }
  else w

/-- `WriteHeaderNow()`: flushes the status line and the header map, once. -/
def ResponseWriter.WriteHeaderNow (w : ResponseWriter) : ResponseWriter :=
  match w.sent with
  | some _ => w
  | none => { w with sent := some (w.status, w.header) }

/-- `Write(data)`: flushes the header block if needed, then appends to the body. -/
def ResponseWriter.Write (w : ResponseWriter) (data : Json) : ResponseWriter :=
  let w1 := w.WriteHeaderNow
  { w1 with body := w1.body ++ [data] }

/-- Set `Content-Type` for a JSON rendering unless the key already has a value. -/
def writeContentType (w : ResponseWriter) : ResponseWriter :=
  match Header.Get w.header "Content-Type" with
  | some _ => w
  | none => { w with header := Header.Set w.header "Content-Type" "application/json; charset=utf-8" }

/-- Statuses that carry no body. -/
def bodyAllowedForStatus (status : Nat) : Bool :=
  if 100 ≤ status ∧ status ≤ 199 then false
  else if status = 204 then false
  else if status = 304 then false
  else true

/-- The `gin.Context` of a request: method, decoded body, path parameters, the
response writer, whether the chain was aborted, and the errors attached. -/
structure Context where
  Method : String
  Body : Option Json
  Params : List (String × String)
  Writer : ResponseWriter
  aborted : Bool
  Errors : List String

/-- `c.Status(code)`. -/
def Context.Status (c : Context) (code : Nat) : Context :=
  { c with Writer := c.Writer.WriteHeader code }

/-- `c.JSON(code, obj)` with `obj` already encoded. -/
def Context.JSON (c : Context) (code : Nat) (obj : Json) : Context :=
  let c1 := c.Status code
  if bodyAllowedForStatus code then
    { c1 with Writer := (writeContentType c1.Writer).Write obj }
  else
    { c1 with Writer := (writeContentType c1.Writer).WriteHeaderNow }

/-- `c.AbortWithStatus(code)`: sets the status, flushes the header block and stops
the chain. -/
def Context.AbortWithStatus (c : Context) (code : Nat) : Context :=
  let c1 := c.Status code
  { c1 with Writer := c1.Writer.WriteHeaderNow, aborted := true }

/-- `c.Param(key)`: the value of a path parameter, the empty string when absent. -/
def Context.Param (c : Context) (key : String) : String :=
  match c.Params.find? (fun p => p.1 == key) with
  | some p => p.2
  | none => ""

/-- Reading the request body into a record (`json.NewDecoder(body).Decode(obj)`):
a body that holds no JSON value is an error, otherwise the value is decoded. -/
def decodeBody {α : Type} (body : Option Json) (unmarshal : Json → Except String α) :
    Except String α :=
  match body with
  | none => .error "invalid character looking for beginning of value"
  | some j => unmarshal j

/-- `c.BindJSON(&obj)`: decode the body into the record; on any error abort with
status 400, attach the error, and return it. -/
def Context.BindJSON {α : Type} (c : Context) (unmarshal : Json → Except String α) :
    Except String α × Context :=
  match decodeBody c.Body unmarshal with
  | .ok a => (.ok a, c)
  | .error e => (.error e, { c.AbortWithStatus 400 with Errors := c.Errors ++ [e] })

/-- What the client receives. -/
structure Response where
  status : Nat
  header : Header
  body : List Json

/-- The response of a handler chain that returned: the server flushes the header
block if no handler did. -/
def ResponseWriter.finish (w : ResponseWriter) : Response :=
  match w.sent with
  | some (st, h) => ⟨st, h, w.body⟩
  | none => ⟨w.status, w.header, w.body⟩

/-! ## Handlers (main.go 76-225) -/

/-- The SQL statements the handlers send, with their parameters. -/
inductive Stmt where
  | insertUsers (name : String)
  | insertBooks (title author : String)
  | selectBooks
  | deleteBooks (id : String)
deriving DecidableEq, Repr

/-- The state a handler runs in: the request context, the store behind `Db`, the
statements sent to the store so far, and the lines printed to the diagnostic log
(`fmt.Println`, `log.Fatal`). -/
structure State where
  ctx : Context
  db : Store
  issued : List Stmt
  out : List String

/-- How a handler run ends: it returns, or `log.Fatal` ends the process in the
state reached. -/
inductive Outcome where
  | returned (s : State)
  | exited (s : State)

/-- The state a run ended in. -/
def Outcome.state : Outcome → State
  | .returned s => s
  | .exited s => s

/-- The response the client gets: the finished response of a run that returned;
after a process exit only what a handler had flushed before, if anything. -/
def Outcome.response : Outcome → Option Response
  | .returned s => some s.ctx.Writer.finish
  | .exited s =>
    match s.ctx.Writer.sent with
    | some (st, h) => some ⟨st, h, s.ctx.Writer.body⟩
    | none => none

/-- `handleAddUsers` (main.go 76-108). -/
def handleAddUsers (env : Env) (s : State) : Outcome :=
  match s.ctx.BindJSON unmarshalUser with
  | (.error err, ctx) =>
    .returned { s with ctx := ctx.JSON 400 (H "Bad request"), out := s.out ++ [err] }
  | (.ok user, ctx) =>
    match s.db.insertUsers env user.Name with
    | (.error err, db) =>
      .returned { ctx := ctx.JSON 500 (H "Something went wrong"), db := db,
                  issued := s.issued ++ [.insertUsers user.Name], out := s.out ++ [err] }
    | (.ok (id, name), db) =>
      .returned { ctx := ctx.JSON 201 (User.toJson { user with Id := id, Name := name }),
                  db := db, issued := s.issued ++ [.insertUsers user.Name], out := s.out }

/-- `handleAddBooks` (main.go 110-141). -/
def handleAddBooks (env : Env) (s : State) : Outcome :=
  match s.ctx.BindJSON unmarshalBook with
  | (.error err, ctx) =>
    .returned { s with ctx := ctx.JSON 400 (H "Bad request"), out := s.out ++ [err] }
  | (.ok book, ctx) =>
    match s.db.insertBooks env book.Title book.Author with
    | (.error err, db) =>
      .returned { ctx := ctx.JSON 500 (H "Something went wrong"), db := db,
                  issued := s.issued ++ [.insertBooks book.Title book.Author],
                  out := s.out ++ [err] }
    | (.ok id, db) =>
      .returned { ctx := ctx.JSON 201 (Book.toJson { book with Id := id }), db := db,
                  issued := s.issued ++ [.insertBooks book.Title book.Author], out := s.out }

/-- `rows.Scan(&book.Id, &book.Title, &book.Author)`: a NULL column cannot be
stored into a `string`. -/
def scanBook (r : BookRow) : Except String Book :=
  match r.title, r.author with
  | some t, some a => .ok ⟨r.id, t, a⟩
  | _, _ => .error "sql: Scan error: converting NULL to string is unsupported"

/-- The loop `for rows.Next()` of `handleFetchBooks` (main.go 159-173): scan each
row and append it; a scan error stops the loop with that error. -/
def scanAll : List BookRow → Slice Book → Except String (Slice Book)
  | [], books => .ok books
  | r :: rest, books =>
    match scanBook r with
    | .error e => .error e
    | .ok book => scanAll rest (books.append book)

/-- `handleFetchBooks` (main.go 143-185).  Each `log.Fatal` ends the process, so
the `context.JSON(500, ...)` written after it is never reached. -/
def handleFetchBooks (env : Env) (s : State) : Outcome :=
  let s1 : State := { s with issued := s.issued ++ [.selectBooks] }
  match s.db.selectBooks env with
  | .error err => .exited { s1 with out := s1.out ++ [err] }
  | .ok rows =>
    match scanAll rows.pending .nil with
    | .error err => .exited { s1 with out := s1.out ++ [err] }
    | .ok books =>
      match rows.err with
      | some err => .exited { s1 with out := s1.out ++ [err] }
      | none => .returned { s1 with ctx := s1.ctx.JSON 200 (marshalBooks books) }

/-- `handleUpdateBooks` (main.go 187-191). -/
def handleUpdateBooks (_env : Env) (s : State) : Outcome :=
  .returned { s with ctx := s.ctx.JSON 200 (H "Updated successfully") }

/-- `handleDeleteBooks` (main.go 193-209). -/
def handleDeleteBooks (env : Env) (s : State) : Outcome :=
  let param := s.ctx.Param "id"
  match s.db.deleteBooks env param with
  | (.error err, db) =>
    .returned { ctx := s.ctx.JSON 500 (H "Something went wrong"), db := db,
                issued := s.issued ++ [.deleteBooks param], out := s.out ++ [err] }
  | (.ok _, db) =>
    .returned { ctx := s.ctx.Status 204, db := db,
                issued := s.issued ++ [.deleteBooks param], out := s.out }

/-- The value of `Access-Control-Allow-Headers` (main.go 215). -/
def allowHeaders : String :=
  "Content-Type, Content-Length, Accept-Encoding, X-CSRF-Token, Authorization, accept, origin, Cache-Control, X-Requested-With"

/-- The value of `Access-Control-Allow-Methods` (main.go 216). -/
def allowMethods : String := "POST, OPTIONS, GET, PUT, DELETE"

/-- The four `Header().Set` calls of the middleware (main.go 213-216). -/
def setCORSHeaders (h : Header) : Header :=
  (((h.Set "Access-Control-Allow-Origin" "*").Set
      "Access-Control-Allow-Credentials" "true").Set
      "Access-Control-Allow-Headers" allowHeaders).Set
      "Access-Control-Allow-Methods" allowMethods

/-- `CORSMiddleware` (main.go 211-225); `next` is the rest of the handler chain,
which `c.Next()` runs. -/
def CORSMiddleware (next : State → Outcome) (s : State) : Outcome :=
  let c : Context :=
    { s.ctx with Writer := { s.ctx.Writer with header := setCORSHeaders s.ctx.Writer.header } }
  if c.Method = "OPTIONS" then
    .returned { s with ctx := c.AbortWithStatus 204 }
  else
    next { s with ctx := c }

/-- The routes registered in `main` (main.go 246-250). -/
inductive Route where
  | addUsers
  | fetchBooks
  | addBooks
  | updateBooks
  | deleteBooks (id : String)
deriving DecidableEq, Repr

/-- The method a route is registered for. -/
def Route.method : Route → String
  | .addUsers => "POST"
  | .fetchBooks => "GET"
  | .addBooks => "POST"
  | .updateBooks => "PUT"
  | .deleteBooks _ => "DELETE"

/-- The handler a route is bound to. -/
def Route.handler : Route → Env → State → Outcome
  | .addUsers => handleAddUsers
  | .fetchBooks => handleFetchBooks
  | .addBooks => handleAddBooks
  | .updateBooks => handleUpdateBooks
  | .deleteBooks _ => handleDeleteBooks

/-- The path parameters a route match binds. -/
def Route.params : Route → List (String × String)
  | .deleteBooks id => [("id", id)]
  | _ => []

/-- A request that matched a registered route, with the store environment it
meets. -/
structure Request where
  route : Route
  body : Option Json
  env : Env

/-- The context of a request before any handler ran. -/
def newContext (method : String) (body : Option Json) (params : List (String × String)) :
    Context :=
  { Method := method, Body := body, Params := params,
    Writer := { header := [], status := 200, sent := none, body := [] },
    aborted := false, Errors := [] }

/-- Serve one routed request against the store: the middleware, then the route
handler (`router.Use(CORSMiddleware())`, main.go 244). -/
def serve (r : Request) (db : Store) : Outcome :=
  CORSMiddleware (r.route.handler r.env)
    { ctx := newContext r.route.method r.body r.route.params, db := db, issued := [], out := [] }

/-- The store after serving the requests one after the other.  The store outlives
a process exit. -/
def serveAll : List Request → Store → Store
  | [], db => db
  | r :: rest, db => serveAll rest (serve r db).state.db

/-- The state a route handler is entered in when `serve` reaches it: a new context
whose header map holds what the middleware set. -/
def routed (r : Request) (db : Store) : State :=
  { ctx := { newContext r.route.method r.body r.route.params with
               Writer := { header := setCORSHeaders [], status := 200, sent := none, body := [] } },
    db := db, issued := [], out := [] }

/-- A state with a new context for the given body and path parameters, before any
handler ran. -/
def entered (method : String) (body : Option Json) (params : List (String × String))
    (db : Store) : State :=
  { ctx := newContext method body params, db := db, issued := [], out := [] }

/-- An environment in which the store does not fail. -/
def noFault : Env := ⟨none, none⟩

/-- A store with both tables empty and both sequences unused. -/
def emptyStore : Store := ⟨0, [], 0, []⟩

/-- Read a `Book` back from its encoding. -/
def Json.toBook? : Json → Option Book
  | .obj [(k1, .int i), (k2, .str t), (k3, .str a)] =>
    if k1 = "id" ∧ k2 = "title" ∧ k3 = "author" then some ⟨i, t, a⟩ else none
  | _ => none

/-- Status and body of the response the client gets, if any. -/
def Outcome.reply (o : Outcome) : Option (Nat × List Json) :=
  o.response.map (fun r => (r.status, r.body))

/-- Nothing of the response has been written yet: the header block is not
flushed and the body is empty.  A handler is entered in such a state. -/
def ResponseWriter.unwritten (w : ResponseWriter) : Bool :=
  w.sent.isNone && w.body.isEmpty

/-- The row a book is stored as. -/
def BookRow.ofBook (b : Book) : BookRow := ⟨b.Id, some b.Title, some b.Author⟩

/-- The book a reply announces: the body of a 201 reply that encodes a book. -/
def createdIn : Option (Nat × List Json) → Option Book
  | some (201, [j]) => j.toBook?
  | _ => none

/-- The book a request created: the book in the 201 reply to a `POST /books`;
`none` for any other request and for any other reply. -/
def created (r : Request) (db : Store) : Option Book :=
  match r.route with
  | .addBooks => createdIn (serve r db).reply
  | _ => none

/-- The books created by the requests of a run, in the order of the requests. -/
def insertions : List Request → Store → List Book
  | [], _ => []
  | r :: rest, db => (created r db).toList ++ insertions rest (serve r db).state.db

/-- The replies (status and body) to the requests of a run, in order. -/
def replies : List Request → Store → List (Option (Nat × List Json))
  | [], _ => []
  | r :: rest, db => (serve r db).reply :: replies rest (serve r db).state.db

/-! ## Example values -/

/-- The body of the end-to-end example of the specification. -/
def dune : Json := .obj [("title", .str "Dune"), ("author", .str "Herbert")]

/-- The same body with an id supplied by the client. -/
def duneWithId : Json :=
  .obj [("id", .int 99), ("title", .str "Dune"), ("author", .str "Herbert")]

/-- A user body. -/
def ann : Json := .obj [("name", .str "Ann")]

/-- Another user body, with an id supplied by the client. -/
def bob : Json := .obj [("id", .int 7), ("name", .str "Bob")]

/-- A store whose only book row has a NULL title. -/
def nullTitleStore : Store := ⟨0, [], 1, [⟨1, none, some "Herbert"⟩]⟩

/-- A store holding the book of the end-to-end example. -/
def duneStore : Store := ⟨0, [], 1, [⟨1, some "Dune", some "Herbert"⟩]⟩

/-- A body that decodes both as a `User` and as a `Book`. -/
def annDune : Json :=
  .obj [("name", .str "Ann"), ("title", .str "Dune"), ("author", .str "Herbert")]

/-- A run of two `POST /books`, the second with an id supplied by the client. -/
def twoPosts : List Request :=
  [⟨.addBooks, some dune, noFault⟩, ⟨.addBooks, some duneWithId, noFault⟩]

/-- A run in which no `POST /books` succeeds: a user insertion, a book body that
is not JSON, a book insertion refused by the store, and an update. -/
def noBookRun : List Request :=
  [⟨.addUsers, some ann, noFault⟩, ⟨.addBooks, none, noFault⟩,
   ⟨.addBooks, some dune, ⟨some "connection refused", none⟩⟩,
   ⟨.updateBooks, none, noFault⟩]

/-- Requests served between two `POST /users`: a book insertion, a rejected user
body, and a user insertion. -/
def betweenUsers : List Request :=
  [⟨.addBooks, some dune, noFault⟩, ⟨.addUsers, none, noFault⟩,
   ⟨.addUsers, some ann, noFault⟩]

/-- An environment in which the store reports the given error for the statement. -/
def failing (e : String) : Env := ⟨some e, none⟩

/-! ## Writer lemmas -/

theorem unwritten_iff (w : ResponseWriter) :
    w.unwritten = true ↔ w.sent = none ∧ w.body = [] := by
  cases w with
  | mk header status sent body =>
    cases sent <;> cases body <;> simp [ResponseWriter.unwritten]

theorem finish_JSON (c : Context) (code : Nat) (j : Json)
    (hw : c.Writer.unwritten = true) (hc : 0 < code)
    (hb : bodyAllowedForStatus code = true) :
    (c.JSON code j).Writer.finish = ⟨code, (writeContentType c.Writer).header, [j]⟩ := by
  obtain ⟨hs, hbody⟩ := (unwritten_iff _).1 hw
  unfold Context.JSON Context.Status
  simp only [hb, if_true]
  unfold ResponseWriter.WriteHeader
  by_cases hst : c.Writer.status = code
  · simp [hst, writeContentType, ResponseWriter.Write, ResponseWriter.WriteHeaderNow,
      ResponseWriter.finish, hs, hbody]
    cases Header.Get c.Writer.header "Content-Type" <;> simp [hs, hbody, hst]
  · simp [hst, hc, hs, writeContentType, ResponseWriter.Write, ResponseWriter.WriteHeaderNow,
      ResponseWriter.finish, hbody]
    cases Header.Get c.Writer.header "Content-Type" <;> simp [hs, hbody, hst]

theorem finish_abort_JSON (c : Context) (code : Nat) (j : Json) (errs : List String)
    (hw : c.Writer.unwritten = true) (hc : 0 < code)
    (hb : bodyAllowedForStatus code = true) :
    (({ c.AbortWithStatus code with Errors := errs } : Context).JSON code j).Writer.finish
      = ⟨code, c.Writer.header, [j]⟩ := by
  obtain ⟨hs, hbody⟩ := (unwritten_iff _).1 hw
  unfold Context.JSON Context.AbortWithStatus Context.Status
  simp only [hb, if_true]
  unfold ResponseWriter.WriteHeader
  by_cases hst : c.Writer.status = code
  · simp [hst, writeContentType, ResponseWriter.Write, ResponseWriter.WriteHeaderNow,
      ResponseWriter.finish, hs, hbody]
    cases Header.Get c.Writer.header "Content-Type" <;> simp [hs, hbody, hst]
  · simp [hst, hc, hs, writeContentType, ResponseWriter.Write, ResponseWriter.WriteHeaderNow,
      ResponseWriter.finish, hbody]
    cases Header.Get c.Writer.header "Content-Type" <;> simp [hs, hbody, hst]

theorem finish_Status (c : Context) (code : Nat)
    (hw : c.Writer.unwritten = true) (hc : 0 < code) :
    (c.Status code).Writer.finish = ⟨code, c.Writer.header, []⟩ := by
  obtain ⟨hs, hbody⟩ := (unwritten_iff _).1 hw
  unfold Context.Status ResponseWriter.WriteHeader
  by_cases hst : c.Writer.status = code
  · simp [hst, ResponseWriter.finish, hs, hbody]
  · simp [hst, hc, hs, ResponseWriter.finish, hbody]

theorem Header.get_set_same (h : Header) (k v : String) :
    (h.Set k v).Get k = some v := by
  unfold Header.Set Header.Get
  rw [List.find?_append]
  have hnone : List.find? (fun p => p.1 == k) (List.filter (fun p => p.1 != k) h) = none := by
    rw [List.find?_eq_none]
    intro x hx
    have := (List.mem_filter.1 hx).2
    simpa using this
  simp [hnone]

theorem Header.get_set_other (h : Header) (k v k2 : String) (hne : k2 ≠ k) :
    (h.Set k v).Get k2 = h.Get k2 := by
  unfold Header.Set Header.Get
  rw [List.find?_append]
  have hkk : (k == k2) = false := by
    rw [beq_eq_false_iff_ne]; exact Ne.symm hne
  have h1 : List.find? (fun p => p.1 == k2) [(k, v)] = none := by
    rw [List.find?_cons]; simp only [hkk]; rfl
  rw [h1]
  simp only [Option.or_none]
  congr 1
  induction h with
  | nil => rfl
  | cons x xs ih =>
    rw [List.filter_cons, List.find?_cons]
    by_cases hx : x.1 = k
    · have hx2 : (x.1 == k2) = false := by
        rw [beq_eq_false_iff_ne]; exact fun h2 => hne (h2 ▸ hx)
      have hx3 : (x.1 != k) = false := by simp [hx]
      simp only [hx2, hx3]
      exact ih
    · have hx3 : (x.1 != k) = true := by simp [hx]
      simp only [hx3, if_true]
      rw [List.find?_cons]
      cases hb : (x.1 == k2)
      · simpa using ih
      · rfl

theorem setCORSHeaders_get (h : Header) :
    (setCORSHeaders h).Get "Access-Control-Allow-Origin" = some "*" ∧
    (setCORSHeaders h).Get "Access-Control-Allow-Credentials" = some "true" ∧
    (setCORSHeaders h).Get "Access-Control-Allow-Headers" = some allowHeaders ∧
    (setCORSHeaders h).Get "Access-Control-Allow-Methods" = some allowMethods := by
  unfold setCORSHeaders
  refine ⟨?_, ?_, ?_, ?_⟩
  · rw [Header.get_set_other _ _ _ _ (by decide), Header.get_set_other _ _ _ _ (by decide),
      Header.get_set_other _ _ _ _ (by decide), Header.get_set_same]
  · rw [Header.get_set_other _ _ _ _ (by decide), Header.get_set_other _ _ _ _ (by decide),
      Header.get_set_same]
  · rw [Header.get_set_other _ _ _ _ (by decide), Header.get_set_same]
  · rw [Header.get_set_same]

theorem entered_unwritten (m : String) (b : Option Json) (ps : List (String × String))
    (db : Store) : (entered m b ps db).ctx.Writer.unwritten = true := rfl

/-! ## Handler lemmas -/

theorem handleAddUsers_bind_error (env : Env) (s : State) (e : String)
    (hd : decodeBody s.ctx.Body unmarshalUser = .error e) :
    handleAddUsers env s = .returned
      { s with ctx := ({ s.ctx.AbortWithStatus 400 with Errors := s.ctx.Errors ++ [e] } :
                  Context).JSON 400 (H "Bad request"),
               out := s.out ++ [e] } := by
  simp [handleAddUsers, Context.BindJSON, hd]

theorem handleAddBooks_bind_error (env : Env) (s : State) (e : String)
    (hd : decodeBody s.ctx.Body unmarshalBook = .error e) :
    handleAddBooks env s = .returned
      { s with ctx := ({ s.ctx.AbortWithStatus 400 with Errors := s.ctx.Errors ++ [e] } :
                  Context).JSON 400 (H "Bad request"),
               out := s.out ++ [e] } := by
  simp [handleAddBooks, Context.BindJSON, hd]

theorem handleAddUsers_store_error (env : Env) (s : State) (u : User) (e : String)
    (db : Store) (hd : decodeBody s.ctx.Body unmarshalUser = .ok u)
    (hq : s.db.insertUsers env u.Name = (.error e, db)) :
    handleAddUsers env s = .returned
      { ctx := s.ctx.JSON 500 (H "Something went wrong"), db := db,
        issued := s.issued ++ [.insertUsers u.Name], out := s.out ++ [e] } := by
  simp [handleAddUsers, Context.BindJSON, hd, hq]

theorem handleAddUsers_ok (env : Env) (s : State) (u : User) (id : Int) (name : String)
    (db : Store) (hd : decodeBody s.ctx.Body unmarshalUser = .ok u)
    (hq : s.db.insertUsers env u.Name = (.ok (id, name), db)) :
    handleAddUsers env s = .returned
      { ctx := s.ctx.JSON 201 (User.toJson ⟨id, name⟩), db := db,
        issued := s.issued ++ [.insertUsers u.Name], out := s.out } := by
  simp [handleAddUsers, Context.BindJSON, hd, hq]

theorem handleAddBooks_store_error (env : Env) (s : State) (b : Book) (e : String)
    (db : Store) (hd : decodeBody s.ctx.Body unmarshalBook = .ok b)
    (hq : s.db.insertBooks env b.Title b.Author = (.error e, db)) :
    handleAddBooks env s = .returned
      { ctx := s.ctx.JSON 500 (H "Something went wrong"), db := db,
        issued := s.issued ++ [.insertBooks b.Title b.Author], out := s.out ++ [e] } := by
  simp [handleAddBooks, Context.BindJSON, hd, hq]

theorem handleAddBooks_ok (env : Env) (s : State) (b : Book) (id : Int)
    (db : Store) (hd : decodeBody s.ctx.Body unmarshalBook = .ok b)
    (hq : s.db.insertBooks env b.Title b.Author = (.ok id, db)) :
    handleAddBooks env s = .returned
      { ctx := s.ctx.JSON 201 (Book.toJson ⟨id, b.Title, b.Author⟩), db := db,
        issued := s.issued ++ [.insertBooks b.Title b.Author], out := s.out } := by
  simp [handleAddBooks, Context.BindJSON, hd, hq]

theorem handleDeleteBooks_store_error (env : Env) (s : State) (e : String) (db : Store)
    (hq : s.db.deleteBooks env (s.ctx.Param "id") = (.error e, db)) :
    handleDeleteBooks env s = .returned
      { ctx := s.ctx.JSON 500 (H "Something went wrong"), db := db,
        issued := s.issued ++ [.deleteBooks (s.ctx.Param "id")], out := s.out ++ [e] } := by
  simp [handleDeleteBooks, hq]

theorem handleDeleteBooks_ok (env : Env) (s : State) (db : Store)
    (hq : s.db.deleteBooks env (s.ctx.Param "id") = (.ok (), db)) :
    handleDeleteBooks env s = .returned
      { ctx := s.ctx.Status 204, db := db,
        issued := s.issued ++ [.deleteBooks (s.ctx.Param "id")], out := s.out } := by
  simp [handleDeleteBooks, hq]

theorem reply_returned (s : State) :
    (Outcome.returned s).reply = some (s.ctx.Writer.finish.status, s.ctx.Writer.finish.body) := by
  simp [Outcome.reply, Outcome.response]

/-! ## Store lemmas -/

theorem nextval_ok (seq n : Nat) (h : nextval seq = .ok n) : n = seq + 1 := by
  unfold nextval at h
  split at h
  · simpa using h.symm
  · simp at h

theorem varchar_fits (n : Nat) (s : String) (h : s.length ≤ n) : varchar n s = .ok s := by
  unfold varchar
  have h1 : s.data.length ≤ n := h
  rw [if_pos h1]

theorem insertUsers_ok (db db1 : Store) (env : Env) (name stored : String) (id : Int)
    (h : db.insertUsers env name = (.ok (id, stored), db1)) :
    id = (db.usersSeq : Int) + 1 ∧ varchar 200 name = .ok stored ∧
    db1 = { db with usersSeq := db.usersSeq + 1,
                    users := db.users ++ [⟨id, some stored⟩] } := by
  unfold Store.insertUsers at h
  split at h
  · simp at h
  · split at h
    · simp at h
    · rename_i n hn
      have hn1 := nextval_ok _ _ hn
      subst hn1
      split at h
      · simp at h
      · rename_i st hst
        split at h
        · simp at h
        · simp only [Prod.mk.injEq, Except.ok.injEq] at h
          obtain ⟨⟨hid, hs⟩, hdb⟩ := h
          have hid2 : id = (db.usersSeq : Int) + 1 := by rw [← hid]; push_cast; rfl
          refine ⟨hid2, by rw [hst, hs], ?_⟩
          rw [← hdb, hid, hs]

theorem insertUsers_frame (db : Store) (env : Env) (name : String) :
    db.usersSeq ≤ (db.insertUsers env name).2.usersSeq ∧
    (db.insertUsers env name).2.books = db.books ∧
    (db.insertUsers env name).2.booksSeq = db.booksSeq := by
  unfold Store.insertUsers
  split
  · exact ⟨le_refl _, rfl, rfl⟩
  · split
    · exact ⟨le_refl _, rfl, rfl⟩
    · rename_i n hn
      have hn1 := nextval_ok _ _ hn
      subst hn1
      split
      · exact ⟨Nat.le_succ _, rfl, rfl⟩
      · split
        · exact ⟨Nat.le_succ _, rfl, rfl⟩
        · exact ⟨Nat.le_succ _, rfl, rfl⟩

theorem insertBooks_frame (db : Store) (env : Env) (t a : String) :
    (db.insertBooks env t a).2.usersSeq = db.usersSeq ∧
    (db.insertBooks env t a).2.users = db.users := by
  unfold Store.insertBooks
  split
  · exact ⟨rfl, rfl⟩
  · split
    · exact ⟨rfl, rfl⟩
    · split
      · exact ⟨rfl, rfl⟩
      · exact ⟨rfl, rfl⟩

theorem deleteBooks_ok (db db1 : Store) (env : Env) (p : String)
    (h : db.deleteBooks env p = (.ok (), db1)) :
    ∃ i, int4in p = some i ∧
      db1 = { db with books := db.books.filter (fun r => r.id != i) } := by
  unfold Store.deleteBooks at h
  split at h
  · simp at h
  · split at h
    · simp at h
    · rename_i i hi
      simp only [Prod.mk.injEq, true_and] at h
      exact ⟨i, hi, h.symm⟩

theorem deleteBooks_frame (db : Store) (env : Env) (p : String) :
    (db.deleteBooks env p).2.usersSeq = db.usersSeq ∧
    (db.deleteBooks env p).2.users = db.users ∧
    (db.deleteBooks env p).2.booksSeq = db.booksSeq := by
  unfold Store.deleteBooks
  split
  · exact ⟨rfl, rfl, rfl⟩
  · split
    · exact ⟨rfl, rfl, rfl⟩
    · exact ⟨rfl, rfl, rfl⟩

theorem deleteBooks_succeeds (db : Store) (env : Env) (p : String) (i : Int)
    (he : env.execErr = none) (hi : int4in p = some i) :
    db.deleteBooks env p =
      (.ok (), { db with books := db.books.filter (fun r => r.id != i) }) := by
  simp [Store.deleteBooks, he, hi]

theorem insertBooks_ok (db db1 : Store) (env : Env) (t a : String) (id : Int)
    (h : db.insertBooks env t a = (.ok id, db1)) :
    id = (db.booksSeq : Int) + 1 ∧
    db1 = { db with booksSeq := db.booksSeq + 1,
                    books := db.books ++ [⟨id, some t, some a⟩] } ∧
    (∀ r ∈ db.books, r.id ≠ id) := by
  unfold Store.insertBooks at h
  split at h
  · simp at h
  · split at h
    · simp at h
    · rename_i n hn
      have hn1 := nextval_ok _ _ hn
      subst hn1
      split at h
      · simp at h
      · rename_i hdup
        simp only [Prod.mk.injEq, Except.ok.injEq] at h
        obtain ⟨hid, hdb⟩ := h
        have hid2 : id = (db.booksSeq : Int) + 1 := by rw [← hid]; push_cast; rfl
        refine ⟨hid2, ?_, ?_⟩
        · rw [← hdb, hid]
        · intro r hr hrid
          apply hdup
          simp only [List.any_eq_true, beq_iff_eq]
          exact ⟨r, hr, by rw [hrid, ← hid]⟩

theorem insertBooks_error (db db1 : Store) (env : Env) (t a e : String)
    (h : db.insertBooks env t a = (.error e, db1)) :
    db1.books = db.books ∧ db1.users = db.users ∧ db1.usersSeq = db.usersSeq
      ∧ db.booksSeq ≤ db1.booksSeq := by
  unfold Store.insertBooks at h
  split at h
  · simp only [Prod.mk.injEq] at h
    rw [← h.2]; exact ⟨rfl, rfl, rfl, le_refl _⟩
  · split at h
    · simp only [Prod.mk.injEq] at h
      rw [← h.2]; exact ⟨rfl, rfl, rfl, le_refl _⟩
    · rename_i n hn
      have hn1 := nextval_ok _ _ hn
      subst hn1
      split at h
      · simp only [Prod.mk.injEq] at h
        rw [← h.2]; exact ⟨rfl, rfl, rfl, Nat.le_succ _⟩
      · simp at h

/-! ## Serving a routed request -/

theorem response_returned (s : State) :
    (Outcome.returned s).response = some s.ctx.Writer.finish := rfl

theorem finish_AbortWithStatus (c : Context) (code : Nat)
    (hw : c.Writer.unwritten = true) (hc : 0 < code) :
    (c.AbortWithStatus code).Writer.finish = ⟨code, c.Writer.header, []⟩ := by
  obtain ⟨hs, hbody⟩ := (unwritten_iff _).1 hw
  unfold Context.AbortWithStatus Context.Status ResponseWriter.WriteHeader
  by_cases hst : c.Writer.status = code
  · simp [hst, ResponseWriter.finish, ResponseWriter.WriteHeaderNow, hs, hbody]
  · simp [hst, hc, hs, ResponseWriter.finish, ResponseWriter.WriteHeaderNow, hbody]

theorem serve_eq (r : Request) (db : Store) :
    serve r db = r.route.handler r.env (routed r db) := by
  unfold serve CORSMiddleware
  have hm : r.route.method ≠ "OPTIONS" := by
    cases r.route <;> first | decide | (show "DELETE" ≠ "OPTIONS"; decide)
  simp only [newContext]
  rw [if_neg hm]
  rfl

theorem routed_unwritten (r : Request) (db : Store) :
    (routed r db).ctx.Writer.unwritten = true := rfl


theorem toBook_toJson (b : Book) : (Book.toJson b).toBook? = some b := by
  simp [Book.toJson, Json.toBook?]

theorem handleAddUsers_frame (env : Env) (s : State) :
    s.db.usersSeq ≤ (handleAddUsers env s).state.db.usersSeq ∧
    (handleAddUsers env s).state.db.books = s.db.books ∧
    (handleAddUsers env s).state.db.booksSeq = s.db.booksSeq := by
  cases hd : decodeBody s.ctx.Body unmarshalUser with
  | error e =>
    rw [handleAddUsers_bind_error env s e hd]
    exact ⟨le_refl _, rfl, rfl⟩
  | ok u =>
    have hf := insertUsers_frame s.db env u.Name
    rcases hq : s.db.insertUsers env u.Name with ⟨res, db1⟩
    rw [hq] at hf
    cases res with
    | error e =>
      rw [handleAddUsers_store_error env s u e db1 hd hq]
      exact hf
    | ok v =>
      obtain ⟨id, name⟩ := v
      rw [handleAddUsers_ok env s u id name db1 hd hq]
      exact hf

theorem handleAddBooks_frame (env : Env) (s : State) :
    (handleAddBooks env s).state.db.usersSeq = s.db.usersSeq ∧
    (handleAddBooks env s).state.db.users = s.db.users := by
  cases hd : decodeBody s.ctx.Body unmarshalBook with
  | error e =>
    rw [handleAddBooks_bind_error env s e hd]
    exact ⟨rfl, rfl⟩
  | ok b =>
    have hf := insertBooks_frame s.db env b.Title b.Author
    rcases hq : s.db.insertBooks env b.Title b.Author with ⟨res, db1⟩
    rw [hq] at hf
    cases res with
    | error e =>
      rw [handleAddBooks_store_error env s b e db1 hd hq]
      exact hf
    | ok id =>
      rw [handleAddBooks_ok env s b id db1 hd hq]
      exact hf

theorem handleFetchBooks_db (env : Env) (s : State) :
    (handleFetchBooks env s).state.db = s.db := by
  unfold handleFetchBooks
  cases s.db.selectBooks env with
  | error e => rfl
  | ok rows =>
    simp only
    cases scanAll rows.pending .nil with
    | error e => rfl
    | ok books =>
      simp only
      cases rows.err <;> rfl

theorem handleDeleteBooks_frame (env : Env) (s : State) :
    (handleDeleteBooks env s).state.db.usersSeq = s.db.usersSeq ∧
    (handleDeleteBooks env s).state.db.users = s.db.users := by
  have hf := deleteBooks_frame s.db env (s.ctx.Param "id")
  rcases hq : s.db.deleteBooks env (s.ctx.Param "id") with ⟨res, db1⟩
  rw [hq] at hf
  cases res with
  | error e =>
    rw [handleDeleteBooks_store_error env s e db1 hq]
    exact ⟨hf.1, hf.2.1⟩
  | ok v =>
    rw [handleDeleteBooks_ok env s db1 hq]
    exact ⟨hf.1, hf.2.1⟩

theorem serve_usersSeq_le (r : Request) (db : Store) :
    db.usersSeq ≤ (serve r db).state.db.usersSeq := by
  rw [serve_eq]
  rcases r with ⟨route, body, env⟩
  cases route with
  | addUsers => exact (handleAddUsers_frame env (routed ⟨.addUsers, body, env⟩ db)).1
  | fetchBooks =>
    exact le_of_eq (congrArg Store.usersSeq
      (handleFetchBooks_db env (routed ⟨.fetchBooks, body, env⟩ db))).symm
  | addBooks =>
    exact le_of_eq (handleAddBooks_frame env (routed ⟨.addBooks, body, env⟩ db)).1.symm
  | updateBooks => exact le_refl _
  | deleteBooks id =>
    exact le_of_eq (handleDeleteBooks_frame env (routed ⟨.deleteBooks id, body, env⟩ db)).1.symm

theorem serveAll_usersSeq_le (rs : List Request) (db : Store) :
    db.usersSeq ≤ (serveAll rs db).usersSeq := by
  induction rs generalizing db with
  | nil => exact le_refl _
  | cons r rest ih => exact le_trans (serve_usersSeq_le r db) (ih _)

theorem routed_param (p : String) (body : Option Json) (env : Env) (db : Store) :
    (routed ⟨.deleteBooks p, body, env⟩ db).ctx.Param "id" = p := by
  rfl

theorem scanAll_ofBooks (bs : List Book) (acc : Slice Book) :
    ∃ books, scanAll (bs.map BookRow.ofBook) acc = .ok books ∧
      books.toList = acc.toList ++ bs ∧ (bs ≠ [] → books = .of (acc.toList ++ bs)) := by
  induction bs generalizing acc with
  | nil => exact ⟨acc, rfl, by simp, fun h => absurd rfl h⟩
  | cons b rest ih =>
    obtain ⟨books, hrun, hlist, hof⟩ := ih (acc.append b)
    refine ⟨books, ?_, ?_, ?_⟩
    · simpa [scanAll, scanBook, BookRow.ofBook] using hrun
    · rw [hlist]; simp [Slice.append, Slice.toList]
    · intro _
      cases rest with
      | nil =>
        simp only [List.map_nil, scanAll] at hrun
        injection hrun with hrun
        rw [← hrun]; rfl
      | cons c cs =>
        rw [hof (by simp)]
        simp [Slice.append, Slice.toList]

theorem scanAll_mem (rows : List BookRow) (acc books : Slice Book)
    (h : scanAll rows acc = .ok books) :
    ∀ b ∈ books.toList, b ∈ acc.toList ∨ ∃ r ∈ rows, r.id = b.Id := by
  induction rows generalizing acc with
  | nil =>
    simp only [scanAll] at h
    injection h with h
    subst h
    intro b hb; exact Or.inl hb
  | cons r rest ih =>
    unfold scanAll at h
    cases hs : scanBook r with
    | error e => rw [hs] at h; simp at h
    | ok book =>
      rw [hs] at h
      simp only at h
      intro b hb
      have hid : r.id = book.Id := by
        unfold scanBook at hs
        split at hs
        · injection hs with hs; rw [← hs]
        · simp at hs
      rcases ih _ h b hb with hacc | ⟨r2, hr2, hid2⟩
      · simp only [Slice.append, Slice.toList, List.mem_append, List.mem_singleton] at hacc
        rcases hacc with hacc | hacc
        · exact Or.inl hacc
        · exact Or.inr ⟨r, List.mem_cons_self _ _, by rw [hacc, hid]⟩
      · exact Or.inr ⟨r2, List.mem_cons_of_mem _ hr2, hid2⟩

theorem selectBooks_pending (db : Store) (env : Env) (rows : Rows)
    (h : db.selectBooks env = .ok rows) : ∀ r ∈ rows.pending, r ∈ db.books := by
  unfold Store.selectBooks at h
  split at h
  · simp at h
  · split at h
    · injection h with h; subst h; intro r hr; exact hr
    · injection h with h; subst h; intro r hr; exact List.mem_of_mem_take hr

theorem handleFetchBooks_reply (env : Env) (s : State) (reply : Nat × List Json)
    (hw : s.ctx.Writer.unwritten = true)
    (h : (handleFetchBooks env s).reply = some reply) :
    ∃ rows books, s.db.selectBooks env = .ok rows ∧
      scanAll rows.pending .nil = .ok books ∧ reply = (200, [marshalBooks books]) := by
  obtain ⟨hs, hbody⟩ := (unwritten_iff _).1 hw
  unfold handleFetchBooks at h
  cases hq : s.db.selectBooks env with
  | error e => simp [hq, Outcome.reply, Outcome.response, hs] at h
  | ok rows =>
    rw [hq] at h
    simp only at h
    cases hsc : scanAll rows.pending .nil with
    | error e => simp [hsc, Outcome.reply, Outcome.response, hs] at h
    | ok books =>
      rw [hsc] at h
      simp only at h
      cases herr : rows.err with
      | some e => simp [herr, Outcome.reply, Outcome.response, hs] at h
      | none =>
        rw [herr] at h
        simp only at h
        rw [reply_returned, finish_JSON _ _ _ hw (by decide) (by decide)] at h
        injection h with h
        exact ⟨rows, books, rfl, hsc, h.symm⟩

theorem handleFetchBooks_ok (env : Env) (s : State) (bs : List Book)
    (hw : s.ctx.Writer.unwritten = true)
    (he : env.execErr = none) (hi : env.iterErr = none)
    (hrows : s.db.books = bs.map BookRow.ofBook) :
    ∃ books, (handleFetchBooks env s).reply = some (200, [marshalBooks books]) ∧
      books.toList = bs ∧ (bs ≠ [] → books = .of bs) ∧ (bs = [] → books = .nil) := by
  obtain ⟨books, hrun, hlist, hof⟩ := scanAll_ofBooks bs .nil
  refine ⟨books, ?_, by simpa [Slice.toList] using hlist,
    fun h => by simpa [Slice.toList] using hof h, ?_⟩
  · unfold handleFetchBooks
    simp only [Store.selectBooks, he, hi, hrows, hrun]
    rw [reply_returned, finish_JSON _ _ _ hw (by decide) (by decide)]
  · intro h
    subst h
    simp only [List.map_nil, scanAll] at hrun
    injection hrun with hrun
    exact hrun.symm

theorem created_other (r : Request) (db : Store) (h : r.route ≠ .addBooks) :
    created r db = none := by
  unfold created
  rcases r with ⟨route, body, env⟩
  cases route <;> first | rfl | exact absurd rfl h

theorem serve_addBooks_step (body : Option Json) (env : Env) (db : Store) :
    (serve ⟨.addBooks, body, env⟩ db).state.db.books
      = db.books ++ ((created ⟨.addBooks, body, env⟩ db).toList.map BookRow.ofBook) := by
  have hserve : serve ⟨.addBooks, body, env⟩ db
      = handleAddBooks env (routed ⟨.addBooks, body, env⟩ db) := serve_eq _ _
  have hc : created ⟨.addBooks, body, env⟩ db
      = createdIn (handleAddBooks env (routed ⟨.addBooks, body, env⟩ db)).reply := by
    unfold created
    simp only
    rw [hserve]
  rw [hc, hserve]
  have hw := routed_unwritten ⟨.addBooks, body, env⟩ db
  cases hd : decodeBody (routed ⟨.addBooks, body, env⟩ db).ctx.Body unmarshalBook with
  | error e =>
    rw [handleAddBooks_bind_error env _ e hd, reply_returned,
      finish_abort_JSON _ _ _ _ hw (by decide) (by decide)]
    simp [Outcome.state, routed, createdIn]
  | ok b =>
    rcases hq : (routed ⟨.addBooks, body, env⟩ db).db.insertBooks env b.Title b.Author
      with ⟨res, db1⟩
    cases res with
    | error e =>
      rw [handleAddBooks_store_error env _ b e db1 hd hq, reply_returned,
        finish_JSON _ _ _ hw (by decide) (by decide)]
      have := (insertBooks_error _ _ _ _ _ _ hq).1
      simp [Outcome.state, this, routed, createdIn]
    | ok id =>
      rw [handleAddBooks_ok env _ b id db1 hd hq, reply_returned,
        finish_JSON _ _ _ hw (by decide) (by decide)]
      have := (insertBooks_ok _ _ _ _ _ _ hq).2.1
      simp [Outcome.state, this, routed, toBook_toJson, BookRow.ofBook, createdIn]

theorem serve_step_books (r : Request) (db : Store)
    (hnd : ∀ id, r.route ≠ .deleteBooks id) :
    (serve r db).state.db.books = db.books ++ ((created r db).toList.map BookRow.ofBook) := by
  rcases r with ⟨route, body, env⟩
  cases route with
  | addBooks => exact serve_addBooks_step body env db
  | addUsers =>
    rw [created_other _ _ (by simp), serve_eq]
    simpa using (handleAddUsers_frame env (routed ⟨.addUsers, body, env⟩ db)).2.1
  | fetchBooks =>
    rw [created_other _ _ (by simp), serve_eq]
    simpa using congrArg Store.books
      (handleFetchBooks_db env (routed ⟨.fetchBooks, body, env⟩ db))
  | updateBooks =>
    rw [created_other _ _ (by simp), serve_eq]
    simp [Route.handler, handleUpdateBooks, Outcome.state, routed]
  | deleteBooks id => exact absurd rfl (hnd id)

theorem serveAll_books (rs : List Request) (db : Store)
    (hnd : ∀ r ∈ rs, ∀ id, r.route ≠ .deleteBooks id) :
    (serveAll rs db).books = db.books ++ (insertions rs db).map BookRow.ofBook := by
  induction rs generalizing db with
  | nil => simp [serveAll, insertions]
  | cons r rest ih =>
    simp only [serveAll, insertions]
    rw [ih _ (fun x hx => hnd x (List.mem_cons_of_mem _ hx)),
      serve_step_books r db (hnd r (List.mem_cons_self _ _))]
    simp

theorem unmarshalBook_fields (t a : String) :
    unmarshalBook (.obj [("title", .str t), ("author", .str a)]) = .ok ⟨0, t, a⟩ := by
  rfl

theorem unmarshalBook_fields_id (cid : Int) (t a : String)
    (hr : -9223372036854775808 ≤ cid ∧ cid ≤ 9223372036854775807) :
    unmarshalBook (.obj [("id", .int cid), ("title", .str t), ("author", .str a)])
      = .ok ⟨cid, t, a⟩ := by
  have h1 : keyMatches "id" "id" = true := by decide
  have h2 : keyMatches "title" "id" = false := by decide
  have h3 : keyMatches "title" "title" = true := by decide
  have h4 : keyMatches "author" "id" = false := by decide
  have h5 : keyMatches "author" "title" = false := by decide
  have h6 : keyMatches "author" "author" = true := by decide
  simp only [unmarshalBook, decodeBookFields, h1, h2, h3, h4, h5, h6, setInt, setString, hr,
    and_self, if_true]
  rfl

theorem unmarshalUser_fields (n : String) :
    unmarshalUser (.obj [("name", .str n)]) = .ok ⟨0, n⟩ := by
  rfl

theorem addBooks_reply_cases (body : Option Json) (env : Env) (db : Store) :
    (∃ st b, st ≠ 201 ∧ (serve ⟨.addBooks, body, env⟩ db).reply = some (st, b) ∧
        created ⟨.addBooks, body, env⟩ db = none) ∨
    (∃ book, (serve ⟨.addBooks, body, env⟩ db).reply = some (201, [Book.toJson book]) ∧
        created ⟨.addBooks, body, env⟩ db = some book) := by
  have hserve : serve ⟨.addBooks, body, env⟩ db
      = handleAddBooks env (routed ⟨.addBooks, body, env⟩ db) := serve_eq _ _
  have hc : created ⟨.addBooks, body, env⟩ db
      = createdIn (handleAddBooks env (routed ⟨.addBooks, body, env⟩ db)).reply := by
    unfold created
    simp only
    rw [hserve]
  rw [hc, hserve]
  have hw := routed_unwritten ⟨.addBooks, body, env⟩ db
  cases hd : decodeBody (routed ⟨.addBooks, body, env⟩ db).ctx.Body unmarshalBook with
  | error e =>
    left
    rw [handleAddBooks_bind_error env _ e hd, reply_returned,
      finish_abort_JSON _ _ _ _ hw (by decide) (by decide)]
    exact ⟨400, _, by decide, rfl, rfl⟩
  | ok b =>
    rcases hq : (routed ⟨.addBooks, body, env⟩ db).db.insertBooks env b.Title b.Author
      with ⟨res, db1⟩
    cases res with
    | error e =>
      left
      rw [handleAddBooks_store_error env _ b e db1 hd hq, reply_returned,
        finish_JSON _ _ _ hw (by decide) (by decide)]
      exact ⟨500, _, by decide, rfl, rfl⟩
    | ok id =>
      right
      rw [handleAddBooks_ok env _ b id db1 hd hq, reply_returned,
        finish_JSON _ _ _ hw (by decide) (by decide)]
      exact ⟨⟨id, b.Title, b.Author⟩, rfl, by simp [createdIn, toBook_toJson]⟩

theorem replies_of_all_created (reqs : List Request) (db : Store)
    (hposts : ∀ r ∈ reqs, r.route = .addBooks)
    (hsucc : ∀ o ∈ replies reqs db, ∃ b, o = some (201, b)) :
    replies reqs db = (insertions reqs db).map (fun b => some (201, [Book.toJson b])) := by
  induction reqs generalizing db with
  | nil => rfl
  | cons r rest ih =>
    rcases r with ⟨route, body, env⟩
    have hroute : route = .addBooks := hposts _ (List.mem_cons_self _ _)
    subst hroute
    simp only [replies, insertions]
    have hrest := ih (serve ⟨.addBooks, body, env⟩ db).state.db
      (fun x hx => hposts x (List.mem_cons_of_mem _ hx))
      (fun o ho => hsucc o (by simp only [replies]; exact List.mem_cons_of_mem _ ho))
    obtain ⟨b, hb⟩ := hsucc (serve ⟨.addBooks, body, env⟩ db).reply
      (by simp only [replies]; exact List.mem_cons_self _ _)
    rcases addBooks_reply_cases body env db with ⟨st, b2, hst, hrep, _⟩ | ⟨book, hrep, hcr⟩
    · rw [hrep] at hb
      injection hb with hb
      injection hb with hb1 hb2
      exact absurd hb1 hst
    · rw [hrep, hcr, hrest]
      rfl

theorem replies_length (reqs : List Request) (db : Store) :
    (replies reqs db).length = reqs.length := by
  induction reqs generalizing db with
  | nil => rfl
  | cons r rest ih => simp [replies, ih]

theorem handler_response_header (route : Route) (env : Env) (s : State) (resp : Response)
    (hw : s.ctx.Writer.unwritten = true)
    (h : (route.handler env s).response = some resp) :
    resp.header = s.ctx.Writer.header ∨
      resp.header = (writeContentType s.ctx.Writer).header := by
  obtain ⟨hs, _⟩ := (unwritten_iff _).1 hw
  cases route with
  | addUsers =>
    simp only [Route.handler] at h
    cases hd : decodeBody s.ctx.Body unmarshalUser with
    | error e =>
      rw [handleAddUsers_bind_error env s e hd, response_returned,
        finish_abort_JSON _ _ _ _ hw (by decide) (by decide)] at h
      injection h with h
      left; rw [← h]
    | ok u =>
      rcases hq : s.db.insertUsers env u.Name with ⟨res, db1⟩
      cases res with
      | error e =>
        rw [handleAddUsers_store_error env s u e db1 hd hq, response_returned,
          finish_JSON _ _ _ hw (by decide) (by decide)] at h
        injection h with h
        right; rw [← h]
      | ok v =>
        obtain ⟨id, name⟩ := v
        rw [handleAddUsers_ok env s u id name db1 hd hq, response_returned,
          finish_JSON _ _ _ hw (by decide) (by decide)] at h
        injection h with h
        right; rw [← h]
  | addBooks =>
    simp only [Route.handler] at h
    cases hd : decodeBody s.ctx.Body unmarshalBook with
    | error e =>
      rw [handleAddBooks_bind_error env s e hd, response_returned,
        finish_abort_JSON _ _ _ _ hw (by decide) (by decide)] at h
      injection h with h
      left; rw [← h]
    | ok b =>
      rcases hq : s.db.insertBooks env b.Title b.Author with ⟨res, db1⟩
      cases res with
      | error e =>
        rw [handleAddBooks_store_error env s b e db1 hd hq, response_returned,
          finish_JSON _ _ _ hw (by decide) (by decide)] at h
        injection h with h
        right; rw [← h]
      | ok id =>
        rw [handleAddBooks_ok env s b id db1 hd hq, response_returned,
          finish_JSON _ _ _ hw (by decide) (by decide)] at h
        injection h with h
        right; rw [← h]
  | fetchBooks =>
    simp only [Route.handler] at h
    unfold handleFetchBooks at h
    cases hq : s.db.selectBooks env with
    | error e => simp [hq, Outcome.response, hs] at h
    | ok rows =>
      rw [hq] at h
      simp only at h
      cases hsc : scanAll rows.pending .nil with
      | error e => simp [hsc, Outcome.response, hs] at h
      | ok books =>
        rw [hsc] at h
        simp only at h
        cases herr : rows.err with
        | some e => simp [herr, Outcome.response, hs] at h
        | none =>
          rw [herr] at h
          simp only at h
          rw [response_returned, finish_JSON _ _ _ hw (by decide) (by decide)] at h
          injection h with h
          right; rw [← h]
  | updateBooks =>
    simp only [Route.handler, handleUpdateBooks] at h
    rw [response_returned, finish_JSON _ _ _ hw (by decide) (by decide)] at h
    injection h with h
    right; rw [← h]
  | deleteBooks id =>
    simp only [Route.handler] at h
    rcases hq : s.db.deleteBooks env (s.ctx.Param "id") with ⟨res, db1⟩
    cases res with
    | error e =>
      rw [handleDeleteBooks_store_error env s e db1 hq, response_returned,
        finish_JSON _ _ _ hw (by decide) (by decide)] at h
      injection h with h
      right; rw [← h]
    | ok v =>
      rw [handleDeleteBooks_ok env s db1 hq, response_returned,
        finish_Status _ _ hw (by decide)] at h
      injection h with h
      left; rw [← h]

theorem serve_response_headers (r : Request) (db : Store) (resp : Response)
    (h : (serve r db).response = some resp) :
    resp.header.Get "Access-Control-Allow-Origin" = some "*" ∧
    resp.header.Get "Access-Control-Allow-Credentials" = some "true" ∧
    resp.header.Get "Access-Control-Allow-Headers" = some allowHeaders ∧
    resp.header.Get "Access-Control-Allow-Methods" = some allowMethods := by
  rw [serve_eq] at h
  rcases handler_response_header r.route r.env (routed r db) resp (routed_unwritten _ _) h
    with hh | hh
  · rw [hh]
    exact ⟨rfl, rfl, rfl, rfl⟩
  · rw [hh]
    exact ⟨rfl, rfl, rfl, rfl⟩

/-- The fetch after a run without deletes, from an empty books table, when the
store does not fail on the fetch: the reply is 200 with the encoding of a slice
that holds exactly the books created by the successful `POST /books` of the run
(as many, each once).  The body is the JSON array of those books when at least
one was created, and `null` when none was.  When the run is N `POST /books`
that all got 201, the slice has N books and the replies of the run are, one for
one, 201 with the books fetched. -/
theorem fetch_after_run (db0 : Store) (reqs : List Request)
    (body : Option Json) (env : Env)
    (hempty : db0.books = [])
    (hnodel : ∀ r ∈ reqs, ∀ id, r.route ≠ .deleteBooks id)
    (hexec : env.execErr = none) (hiter : env.iterErr = none) :
    ∃ books : Slice Book,
      (serve ⟨.fetchBooks, body, env⟩ (serveAll reqs db0)).reply
        = some (200, [marshalBooks books]) ∧
      books.len = (insertions reqs db0).length ∧
      books.toList.Perm (insertions reqs db0) ∧
      (insertions reqs db0 ≠ [] →
        marshalBooks books = .arr ((insertions reqs db0).map Book.toJson)) ∧
      (insertions reqs db0 = [] → marshalBooks books = .null) ∧
      ((∀ r ∈ reqs, r.route = .addBooks) →
        (∀ o ∈ replies reqs db0, ∃ b, o = some (201, b)) →
        books.len = reqs.length ∧
        replies reqs db0 = books.toList.map (fun b => some (201, [Book.toJson b]))) := by
  have hrows : (serveAll reqs db0).books = (insertions reqs db0).map BookRow.ofBook := by
    rw [serveAll_books reqs db0 hnodel, hempty, List.nil_append]
  obtain ⟨books, hreply, hlist, hof, hnil⟩ :=
    handleFetchBooks_ok env (routed ⟨.fetchBooks, body, env⟩ (serveAll reqs db0))
      (insertions reqs db0) (routed_unwritten _ _) hexec hiter hrows
  refine ⟨books, ?_, ?_, ?_, ?_, ?_, ?_⟩
  · rw [serve_eq]; exact hreply
  · rw [Slice.len, hlist]
  · rw [hlist]
  · intro hne
    rw [hof hne]; rfl
  · intro he
    rw [hnil he]; rfl
  · intro hposts hsucc
    have hrep := replies_of_all_created reqs db0 hposts hsucc
    refine ⟨?_, ?_⟩
    · rw [Slice.len, hlist, ← replies_length reqs db0, hrep, List.length_map]
    · rw [hlist]; exact hrep

/-! ## The claims -/

/-- C1: for every store and every body that decodes to a book with title `t` and
author `a` (whatever id `cid` the client supplied), when the insert statement
succeeds with id `id`, `handleAddBooks` replies 201 with the book `(id, t, a)`:
the id is the one the store drew from the sequence for the new row, `cid` is
not used; afterwards the books table is the old table followed by exactly the
row `(id, t, a)`, no older row has that id, and the users table is unchanged. -/
theorem handleAddBooks_created (env : Env) (s : State) (j : Json) (cid id : Int)
    (t a : String) (db : Store)
    (hw : s.ctx.Writer.unwritten = true)
    (hbody : s.ctx.Body = some j)
    (hj : unmarshalBook j = .ok ⟨cid, t, a⟩)
    (hq : s.db.insertBooks env t a = (.ok id, db)) :
    (handleAddBooks env s).reply = some (201, [Book.toJson ⟨id, t, a⟩]) ∧
    (handleAddBooks env s).state.db.books = s.db.books ++ [⟨id, some t, some a⟩] ∧
    (∀ r ∈ s.db.books, r.id ≠ id) ∧
    id = (s.db.booksSeq : Int) + 1 ∧
    (handleAddBooks env s).state.db.users = s.db.users := by
  have hd : decodeBody s.ctx.Body unmarshalBook = .ok ⟨cid, t, a⟩ := by
    rw [hbody]; exact hj
  obtain ⟨hid, hdb, hfresh⟩ := insertBooks_ok _ _ _ _ _ _ hq
  rw [handleAddBooks_ok env s ⟨cid, t, a⟩ id db hd hq]
  refine ⟨?_, ?_, hfresh, hid, ?_⟩
  · rw [reply_returned, finish_JSON _ _ _ hw (by decide) (by decide)]
  · show db.books = _
    rw [hdb]
  · show db.users = _
    rw [hdb]

/-- Witness of C1: the body of the example with client id 99, on the empty store;
the store assigns id 1. -/
theorem handleAddBooks_created_witness :
    (handleAddBooks noFault (entered "POST" (some duneWithId) [] emptyStore)).reply
      = some (201, [Book.toJson ⟨1, "Dune", "Herbert"⟩]) ∧
    (handleAddBooks noFault (entered "POST" (some duneWithId) [] emptyStore)).state.db.books
      = (entered "POST" (some duneWithId) [] emptyStore).db.books
          ++ [⟨1, some "Dune", some "Herbert"⟩] ∧
    (∀ r ∈ (entered "POST" (some duneWithId) [] emptyStore).db.books, r.id ≠ 1) ∧
    (1 : Int) = ((entered "POST" (some duneWithId) [] emptyStore).db.booksSeq : Int) + 1 ∧
    (handleAddBooks noFault (entered "POST" (some duneWithId) [] emptyStore)).state.db.users
      = (entered "POST" (some duneWithId) [] emptyStore).db.users :=
  handleAddBooks_created noFault (entered "POST" (some duneWithId) [] emptyStore)
    duneWithId 99 1 "Dune" "Herbert" duneStore rfl rfl rfl rfl

/-- C2 (the code departs from the claim at N = 0): from the empty books table,
after no request at all, and after a run in which no `POST /books` succeeded,
the fetch replies 200 with the body `null`, which is not the array of the zero
books inserted: the slice `books` of `handleFetchBooks` is still nil.  After two
successful `POST /books` the same fetch does reply the array of the two books the
insertions returned. -/
theorem fetch_without_insertion_null :
    (insertions [] emptyStore = [] ∧
      (serve ⟨.fetchBooks, none, noFault⟩ (serveAll [] emptyStore)).reply
        = some (200, [Json.null])) ∧
    (insertions noBookRun emptyStore = [] ∧
      (serveAll noBookRun emptyStore).books = [] ∧
      (serve ⟨.fetchBooks, none, noFault⟩ (serveAll noBookRun emptyStore)).reply
        = some (200, [Json.null])) ∧
    Json.null ≠ Json.arr (List.map Book.toJson []) ∧
    (replies twoPosts emptyStore
        = [some (201, [Book.toJson ⟨1, "Dune", "Herbert"⟩]),
           some (201, [Book.toJson ⟨2, "Dune", "Herbert"⟩])] ∧
      (serve ⟨.fetchBooks, none, noFault⟩ (serveAll twoPosts emptyStore)).reply
        = some (200, [Json.arr [Book.toJson ⟨1, "Dune", "Herbert"⟩,
                                Book.toJson ⟨2, "Dune", "Herbert"⟩]])) :=
  ⟨⟨rfl, rfl⟩, ⟨rfl, rfl, rfl⟩, fun h => Json.noConfusion h, ⟨rfl, rfl⟩⟩

/-- C3 (the code departs from the claim): on an empty books table, with no store
failure, `handleFetchBooks` replies 200 with the body `null`, which is not the
empty array: `var books []Book` is the nil slice and the loop never appends to
it.  The same holds along the end-to-end example of the specification, after
the only book has been inserted and deleted again. -/
theorem handleFetchBooks_empty_table_null :
    (handleFetchBooks noFault (entered "GET" none [] emptyStore)).reply
      = some (200, [Json.null]) ∧
    (serve ⟨.addBooks, some dune, noFault⟩ emptyStore).reply
      = some (201, [Book.toJson ⟨1, "Dune", "Herbert"⟩]) ∧
    (serve ⟨.deleteBooks "1", none, noFault⟩
        (serve ⟨.addBooks, some dune, noFault⟩ emptyStore).state.db).reply
      = some (204, []) ∧
    (serve ⟨.deleteBooks "1", none, noFault⟩
        (serve ⟨.addBooks, some dune, noFault⟩ emptyStore).state.db).state.db.books = [] ∧
    (serve ⟨.fetchBooks, none, noFault⟩
        (serve ⟨.deleteBooks "1", none, noFault⟩
          (serve ⟨.addBooks, some dune, noFault⟩ emptyStore).state.db).state.db).reply
      = some (200, [Json.null]) ∧
    Json.null ≠ Json.arr [] :=
  ⟨rfl, rfl, rfl, rfl, rfl, fun h => Json.noConfusion h⟩

/-- C4: for every store and every id `i` (sent as the text `p` the store reads as
`i`), when the delete statement succeeds `handleDeleteBooks` replies 204 with no
body, whether or not a row with that id existed; afterwards no row of the books
table has id `i`, and a fetch served next, if it replies at all, replies 200
with books none of which has id `i`. -/
theorem delete_then_fetch (db : Store) (p : String) (i : Int) (env envF : Env)
    (body bodyF : Option Json)
    (hid : int4in p = some i)
    (hok : (db.deleteBooks env p).1 = .ok ()) :
    (serve ⟨.deleteBooks p, body, env⟩ db).reply = some (204, []) ∧
    (∀ r ∈ (serve ⟨.deleteBooks p, body, env⟩ db).state.db.books, r.id ≠ i) ∧
    ∀ reply,
      (serve ⟨.fetchBooks, bodyF, envF⟩
          (serve ⟨.deleteBooks p, body, env⟩ db).state.db).reply = some reply →
      ∃ books : Slice Book, reply = (200, [marshalBooks books]) ∧
        ∀ b ∈ books.toList, b.Id ≠ i := by
  have hq : (routed ⟨.deleteBooks p, body, env⟩ db).db.deleteBooks env
      ((routed ⟨.deleteBooks p, body, env⟩ db).ctx.Param "id")
      = (.ok (), (db.deleteBooks env p).2) := by
    rw [routed_param]
    show db.deleteBooks env p = _
    rw [← hok]
  obtain ⟨i2, hi2, hdb⟩ := deleteBooks_ok _ _ _ _ hq
  rw [routed_param, hid] at hi2
  injection hi2 with hi2
  subst hi2
  have hrun : serve ⟨.deleteBooks p, body, env⟩ db = _ :=
    (serve_eq _ _).trans (handleDeleteBooks_ok env _ _ hq)
  have hgone : ∀ r ∈ (serve ⟨.deleteBooks p, body, env⟩ db).state.db.books, r.id ≠ i := by
    rw [hrun]
    show ∀ r ∈ (db.deleteBooks env p).2.books, r.id ≠ i
    rw [hdb]
    intro r hr
    have := (List.mem_filter.1 hr).2
    simpa using this
  refine ⟨?_, hgone, ?_⟩
  · rw [hrun, reply_returned, finish_Status _ _ (routed_unwritten _ _) (by decide)]
  · intro reply hreply
    rw [serve_eq] at hreply
    obtain ⟨rows, books, hsel, hscan, hrep⟩ :=
      handleFetchBooks_reply envF _ reply (routed_unwritten _ _) hreply
    refine ⟨books, hrep, ?_⟩
    intro b hb
    rcases scanAll_mem _ _ _ hscan b hb with hnil | ⟨r, hr, hrid⟩
    · simp [Slice.toList] at hnil
    · rw [← hrid]
      exact hgone r (selectBooks_pending _ _ _ hsel r hr)

/-- Witness of C4: deleting id 1 from the store that holds book 1, and deleting
id 5, which no row has, from the same store. -/
theorem delete_then_fetch_witness :
    ((serve ⟨.deleteBooks "1", none, noFault⟩ duneStore).reply = some (204, []) ∧
      (∀ r ∈ (serve ⟨.deleteBooks "1", none, noFault⟩ duneStore).state.db.books, r.id ≠ 1) ∧
      ∀ reply,
        (serve ⟨.fetchBooks, none, noFault⟩
            (serve ⟨.deleteBooks "1", none, noFault⟩ duneStore).state.db).reply = some reply →
        ∃ books : Slice Book, reply = (200, [marshalBooks books]) ∧
          ∀ b ∈ books.toList, b.Id ≠ 1) ∧
    ((serve ⟨.deleteBooks "5", none, noFault⟩ duneStore).reply = some (204, []) ∧
      (∀ r ∈ (serve ⟨.deleteBooks "5", none, noFault⟩ duneStore).state.db.books, r.id ≠ 5) ∧
      ∀ reply,
        (serve ⟨.fetchBooks, none, noFault⟩
            (serve ⟨.deleteBooks "5", none, noFault⟩ duneStore).state.db).reply = some reply →
        ∃ books : Slice Book, reply = (200, [marshalBooks books]) ∧
          ∀ b ∈ books.toList, b.Id ≠ 5) :=
  ⟨delete_then_fetch duneStore "1" 1 noFault noFault none none (by decide) rfl,
   delete_then_fetch duneStore "5" 5 noFault noFault none none (by decide) rfl⟩

/-- C5: for every body that `BindJSON` fails to decode into the target record
(no JSON value, or a value of the wrong shape), `handleAddUsers` and
`handleAddBooks` reply 400 with the body `message: Bad request`, send no
statement to the store, and leave the store (both tables) as it was. -/
theorem bind_error_bad_request (env : Env) (s : State) (e : String)
    (hw : s.ctx.Writer.unwritten = true) :
    (decodeBody s.ctx.Body unmarshalUser = .error e →
      (handleAddUsers env s).reply = some (400, [H "Bad request"]) ∧
      (handleAddUsers env s).state.issued = s.issued ∧
      (handleAddUsers env s).state.db = s.db) ∧
    (decodeBody s.ctx.Body unmarshalBook = .error e →
      (handleAddBooks env s).reply = some (400, [H "Bad request"]) ∧
      (handleAddBooks env s).state.issued = s.issued ∧
      (handleAddBooks env s).state.db = s.db) := by
  constructor
  · intro hd
    rw [handleAddUsers_bind_error env s e hd]
    refine ⟨?_, rfl, rfl⟩
    rw [reply_returned, finish_abort_JSON _ _ _ _ hw (by decide) (by decide)]
  · intro hd
    rw [handleAddBooks_bind_error env s e hd]
    refine ⟨?_, rfl, rfl⟩
    rw [reply_returned, finish_abort_JSON _ _ _ _ hw (by decide) (by decide)]

/-- Witness of C5: a body that holds no JSON value, on the store with one book. -/
theorem bind_error_bad_request_witness :
    ((handleAddUsers noFault (entered "POST" none [] duneStore)).reply
        = some (400, [H "Bad request"]) ∧
      (handleAddUsers noFault (entered "POST" none [] duneStore)).state.issued
        = (entered "POST" none [] duneStore).issued ∧
      (handleAddUsers noFault (entered "POST" none [] duneStore)).state.db
        = (entered "POST" none [] duneStore).db) ∧
    ((handleAddBooks noFault (entered "POST" none [] duneStore)).reply
        = some (400, [H "Bad request"]) ∧
      (handleAddBooks noFault (entered "POST" none [] duneStore)).state.issued
        = (entered "POST" none [] duneStore).issued ∧
      (handleAddBooks noFault (entered "POST" none [] duneStore)).state.db
        = (entered "POST" none [] duneStore).db) :=
  ⟨(bind_error_bad_request noFault (entered "POST" none [] duneStore)
      "invalid character looking for beginning of value" rfl).1 rfl,
   (bind_error_bad_request noFault (entered "POST" none [] duneStore)
      "invalid character looking for beginning of value" rfl).2 rfl⟩

/-- C6: for names that fit the column (at most 200 characters), a `POST /users`
whose insert statement succeeds replies 201 with the user `(id, name)`: the name
is exactly the one decoded from the body and the id is the one the store drew
for the new row, not the client's; and of two such requests, with any routed
requests served between them, the later one gets the strictly greater id. -/
theorem addUsers_ids_increase (db db1 db2 : Store) (j1 j2 : Json) (env1 env2 : Env)
    (between : List Request) (c1 c2 id1 id2 : Int) (n1 n2 s1 s2 : String)
    (hj1 : unmarshalUser j1 = .ok ⟨c1, n1⟩) (hj2 : unmarshalUser j2 = .ok ⟨c2, n2⟩)
    (hv1 : n1.length ≤ 200) (hv2 : n2.length ≤ 200)
    (hq1 : db.insertUsers env1 n1 = (.ok (id1, s1), db1))
    (hq2 : (serveAll between db1).insertUsers env2 n2 = (.ok (id2, s2), db2)) :
    (serve ⟨.addUsers, some j1, env1⟩ db).reply = some (201, [User.toJson ⟨id1, n1⟩]) ∧
    (serve ⟨.addUsers, some j1, env1⟩ db).state.db = db1 ∧
    db1.users = db.users ++ [⟨id1, some n1⟩] ∧
    (serve ⟨.addUsers, some j2, env2⟩ (serveAll between db1)).reply
      = some (201, [User.toJson ⟨id2, n2⟩]) ∧
    id1 < id2 := by
  obtain ⟨hid1, hst1, hdb1⟩ := insertUsers_ok _ _ _ _ _ _ hq1
  obtain ⟨hid2, hst2, hdb2⟩ := insertUsers_ok _ _ _ _ _ _ hq2
  rw [varchar_fits _ _ hv1] at hst1
  rw [varchar_fits _ _ hv2] at hst2
  injection hst1 with hst1
  injection hst2 with hst2
  subst hst1 hst2
  have hrun1 : serve ⟨.addUsers, some j1, env1⟩ db = _ :=
    (serve_eq _ _).trans (handleAddUsers_ok env1 (routed ⟨.addUsers, some j1, env1⟩ db)
      ⟨c1, n1⟩ id1 n1 db1 hj1 hq1)
  have hrun2 : serve ⟨.addUsers, some j2, env2⟩ (serveAll between db1) = _ :=
    (serve_eq _ _).trans (handleAddUsers_ok env2
      (routed ⟨.addUsers, some j2, env2⟩ (serveAll between db1)) ⟨c2, n2⟩ id2 n2 db2 hj2 hq2)
  refine ⟨?_, ?_, ?_, ?_, ?_⟩
  · rw [hrun1, reply_returned, finish_JSON _ _ _ (routed_unwritten _ _) (by decide) (by decide)]
  · rw [hrun1]; rfl
  · rw [hdb1]
  · rw [hrun2, reply_returned, finish_JSON _ _ _ (routed_unwritten _ _) (by decide) (by decide)]
  · have hmono := serveAll_usersSeq_le between db1
    have hseq1 : db1.usersSeq = db.usersSeq + 1 := by rw [hdb1]
    rw [hid1, hid2]
    have : (db.usersSeq : Int) + 1 ≤ ((serveAll between db1).usersSeq : Int) := by
      rw [hseq1] at hmono
      exact_mod_cast hmono
    omega

/-- Witness of C6: Ann, then three other requests (one of them another user
insertion), then Bob with client id 7; the ids assigned are 1 and 3. -/
theorem addUsers_ids_increase_witness :
    (serve ⟨.addUsers, some ann, noFault⟩ emptyStore).reply
      = some (201, [User.toJson ⟨1, "Ann"⟩]) ∧
    (serve ⟨.addUsers, some ann, noFault⟩ emptyStore).state.db
      = ⟨1, [⟨1, some "Ann"⟩], 0, []⟩ ∧
    (⟨1, [⟨1, some "Ann"⟩], 0, []⟩ : Store).users = emptyStore.users ++ [⟨1, some "Ann"⟩] ∧
    (serve ⟨.addUsers, some bob, noFault⟩
        (serveAll betweenUsers ⟨1, [⟨1, some "Ann"⟩], 0, []⟩)).reply
      = some (201, [User.toJson ⟨3, "Bob"⟩]) ∧
    (1 : Int) < 3 :=
  addUsers_ids_increase emptyStore ⟨1, [⟨1, some "Ann"⟩], 0, []⟩
    ⟨3, [⟨1, some "Ann"⟩, ⟨2, some "Ann"⟩, ⟨3, some "Bob"⟩], 1,
      [⟨1, some "Dune", some "Herbert"⟩]⟩
    ann bob noFault noFault betweenUsers 0 7 1 3 "Ann" "Bob" "Ann" "Bob"
    rfl rfl (by decide) (by decide) rfl rfl

/-- C7: when the statement of `handleAddUsers`, `handleAddBooks` or
`handleDeleteBooks` fails with any store error `e`, the whole response is status
500 with the one body `message: Something went wrong`; neither the status, the
headers nor the body depend on `e`, which goes to the diagnostic output only, and
nothing else (no 201, no 204) is written. -/
theorem store_error_generic_500 (env : Env) (s : State) (e : String) (db : Store)
    (hw : s.ctx.Writer.unwritten = true) :
    (∀ u : User, decodeBody s.ctx.Body unmarshalUser = .ok u →
      s.db.insertUsers env u.Name = (.error e, db) →
      (handleAddUsers env s).response
        = some ⟨500, (writeContentType s.ctx.Writer).header, [H "Something went wrong"]⟩ ∧
      (handleAddUsers env s).state.out = s.out ++ [e]) ∧
    (∀ b : Book, decodeBody s.ctx.Body unmarshalBook = .ok b →
      s.db.insertBooks env b.Title b.Author = (.error e, db) →
      (handleAddBooks env s).response
        = some ⟨500, (writeContentType s.ctx.Writer).header, [H "Something went wrong"]⟩ ∧
      (handleAddBooks env s).state.out = s.out ++ [e]) ∧
    (s.db.deleteBooks env (s.ctx.Param "id") = (.error e, db) →
      (handleDeleteBooks env s).response
        = some ⟨500, (writeContentType s.ctx.Writer).header, [H "Something went wrong"]⟩ ∧
      (handleDeleteBooks env s).state.out = s.out ++ [e]) := by
  refine ⟨?_, ?_, ?_⟩
  · intro u hd hq
    rw [handleAddUsers_store_error env s u e db hd hq]
    refine ⟨?_, rfl⟩
    rw [response_returned, finish_JSON _ _ _ hw (by decide) (by decide)]
  · intro b hd hq
    rw [handleAddBooks_store_error env s b e db hd hq]
    refine ⟨?_, rfl⟩
    rw [response_returned, finish_JSON _ _ _ hw (by decide) (by decide)]
  · intro hq
    rw [handleDeleteBooks_store_error env s e db hq]
    refine ⟨?_, rfl⟩
    rw [response_returned, finish_JSON _ _ _ hw (by decide) (by decide)]

/-- Witness of C7: the store refuses the connection, on a request whose body
decodes as a user and as a book and whose path parameter is `1`. -/
theorem store_error_generic_500_witness :
    ((handleAddUsers (failing "connection refused")
          (entered "POST" (some annDune) [("id", "1")] duneStore)).response
        = some ⟨500,
            (writeContentType (entered "POST" (some annDune) [("id", "1")] duneStore).ctx.Writer).header,
            [H "Something went wrong"]⟩ ∧
      (handleAddUsers (failing "connection refused")
          (entered "POST" (some annDune) [("id", "1")] duneStore)).state.out
        = (entered "POST" (some annDune) [("id", "1")] duneStore).out ++ ["connection refused"]) ∧
    ((handleAddBooks (failing "connection refused")
          (entered "POST" (some annDune) [("id", "1")] duneStore)).response
        = some ⟨500,
            (writeContentType (entered "POST" (some annDune) [("id", "1")] duneStore).ctx.Writer).header,
            [H "Something went wrong"]⟩ ∧
      (handleAddBooks (failing "connection refused")
          (entered "POST" (some annDune) [("id", "1")] duneStore)).state.out
        = (entered "POST" (some annDune) [("id", "1")] duneStore).out ++ ["connection refused"]) ∧
    ((handleDeleteBooks (failing "connection refused")
          (entered "POST" (some annDune) [("id", "1")] duneStore)).response
        = some ⟨500,
            (writeContentType (entered "POST" (some annDune) [("id", "1")] duneStore).ctx.Writer).header,
            [H "Something went wrong"]⟩ ∧
      (handleDeleteBooks (failing "connection refused")
          (entered "POST" (some annDune) [("id", "1")] duneStore)).state.out
        = (entered "POST" (some annDune) [("id", "1")] duneStore).out ++ ["connection refused"]) :=
  ⟨(store_error_generic_500 (failing "connection refused")
      (entered "POST" (some annDune) [("id", "1")] duneStore) "connection refused"
      duneStore rfl).1 ⟨0, "Ann"⟩ rfl rfl,
   (store_error_generic_500 (failing "connection refused")
      (entered "POST" (some annDune) [("id", "1")] duneStore) "connection refused"
      duneStore rfl).2.1 ⟨0, "Dune", "Herbert"⟩ rfl rfl,
   (store_error_generic_500 (failing "connection refused")
      (entered "POST" (some annDune) [("id", "1")] duneStore) "connection refused"
      duneStore rfl).2.2 rfl⟩

/-- C8: on every request the middleware sets the four cross-origin headers in the
response header map (`*`, `true`, the enumerated headers, and the methods
`POST, OPTIONS, GET, PUT, DELETE`).  When the method is `OPTIONS` the response is
status 204 with those headers and no body, the chain is aborted, the outcome is
the same whatever the rest of the chain is (the route handler is not run), and
the store and the statements sent are unchanged.  For every other method the
outcome is that of the rest of the chain run on the state with the headers set;
and whatever response a routed request served through the middleware gets, it
carries the four headers. -/
theorem CORSMiddleware_spec (next : State → Outcome) (s : State) (r : Request)
    (db : Store) (hw : s.ctx.Writer.unwritten = true) :
    ((setCORSHeaders s.ctx.Writer.header).Get "Access-Control-Allow-Origin" = some "*" ∧
      (setCORSHeaders s.ctx.Writer.header).Get "Access-Control-Allow-Credentials"
        = some "true" ∧
      (setCORSHeaders s.ctx.Writer.header).Get "Access-Control-Allow-Headers"
        = some "Content-Type, Content-Length, Accept-Encoding, X-CSRF-Token, Authorization, accept, origin, Cache-Control, X-Requested-With" ∧
      (setCORSHeaders s.ctx.Writer.header).Get "Access-Control-Allow-Methods"
        = some "POST, OPTIONS, GET, PUT, DELETE") ∧
    (s.ctx.Method = "OPTIONS" →
      (CORSMiddleware next s).response
        = some ⟨204, setCORSHeaders s.ctx.Writer.header, []⟩ ∧
      (∃ s1, CORSMiddleware next s = .returned s1 ∧ s1.ctx.aborted = true) ∧
      (∀ other : State → Outcome, CORSMiddleware other s = CORSMiddleware next s) ∧
      (CORSMiddleware next s).state.db = s.db ∧
      (CORSMiddleware next s).state.issued = s.issued) ∧
    (s.ctx.Method ≠ "OPTIONS" →
      CORSMiddleware next s
        = next { s with ctx := { s.ctx with
            Writer := { s.ctx.Writer with header := setCORSHeaders s.ctx.Writer.header } } }) ∧
    (∀ resp, (serve r db).response = some resp →
      resp.header.Get "Access-Control-Allow-Origin" = some "*" ∧
      resp.header.Get "Access-Control-Allow-Credentials" = some "true" ∧
      resp.header.Get "Access-Control-Allow-Headers"
        = some "Content-Type, Content-Length, Accept-Encoding, X-CSRF-Token, Authorization, accept, origin, Cache-Control, X-Requested-With" ∧
      resp.header.Get "Access-Control-Allow-Methods"
        = some "POST, OPTIONS, GET, PUT, DELETE") := by
  obtain ⟨hs, hbody⟩ := (unwritten_iff _).1 hw
  refine ⟨setCORSHeaders_get _, ?_, ?_, fun resp h => serve_response_headers r db resp h⟩
  · intro hm
    have hrun : ∀ f : State → Outcome, CORSMiddleware f s = .returned { s with ctx :=
        ({ s.ctx with Writer := { s.ctx.Writer with
            header := setCORSHeaders s.ctx.Writer.header } } : Context).AbortWithStatus 204 } := by
      intro f
      unfold CORSMiddleware
      simp only [hm, if_true]
    refine ⟨?_, ⟨_, hrun next, rfl⟩, fun other => by rw [hrun other, hrun next], ?_, ?_⟩
    · rw [hrun next, response_returned]
      rw [finish_AbortWithStatus _ _ (by rw [unwritten_iff]; exact ⟨hs, hbody⟩) (by decide)]
    · rw [hrun next]; rfl
    · rw [hrun next]; rfl
  · intro hm
    unfold CORSMiddleware
    simp only [hm, if_false]

/-- Witness of C8: an `OPTIONS` request in front of the book insertion handler
(which is not run: the store keeps its one book), and a `POST` in front of the
same handler (which is run). -/
theorem CORSMiddleware_spec_witness :
    ((CORSMiddleware (handleAddBooks noFault)
          (entered "OPTIONS" (some dune) [] duneStore)).response
        = some ⟨204,
            setCORSHeaders (entered "OPTIONS" (some dune) [] duneStore).ctx.Writer.header, []⟩ ∧
      (∃ s1, CORSMiddleware (handleAddBooks noFault)
          (entered "OPTIONS" (some dune) [] duneStore) = .returned s1 ∧
        s1.ctx.aborted = true) ∧
      (∀ other : State → Outcome,
        CORSMiddleware other (entered "OPTIONS" (some dune) [] duneStore)
          = CORSMiddleware (handleAddBooks noFault)
              (entered "OPTIONS" (some dune) [] duneStore)) ∧
      (CORSMiddleware (handleAddBooks noFault)
          (entered "OPTIONS" (some dune) [] duneStore)).state.db
        = (entered "OPTIONS" (some dune) [] duneStore).db ∧
      (CORSMiddleware (handleAddBooks noFault)
          (entered "OPTIONS" (some dune) [] duneStore)).state.issued
        = (entered "OPTIONS" (some dune) [] duneStore).issued) ∧
    (CORSMiddleware (handleAddBooks noFault) (entered "POST" (some dune) [] duneStore)
      = handleAddBooks noFault
          { entered "POST" (some dune) [] duneStore with
            ctx := { (entered "POST" (some dune) [] duneStore).ctx with
              Writer := { (entered "POST" (some dune) [] duneStore).ctx.Writer with
                header := setCORSHeaders
                  (entered "POST" (some dune) [] duneStore).ctx.Writer.header } } }) :=
  ⟨(CORSMiddleware_spec (handleAddBooks noFault)
      (entered "OPTIONS" (some dune) [] duneStore) ⟨.addBooks, some dune, noFault⟩
      duneStore rfl).2.1 rfl,
   (CORSMiddleware_spec (handleAddBooks noFault)
      (entered "POST" (some dune) [] duneStore) ⟨.addBooks, some dune, noFault⟩
      duneStore rfl).2.2.1 (by decide)⟩

/-- C9: for every body and every store, `handleUpdateBooks` replies 200 with the
body `message: Updated successfully`, sends no statement and leaves the store as
it was; served any number of times it leaves the store unchanged and replies
the same again. -/
theorem handleUpdateBooks_noop (env : Env) (s : State) (db : Store)
    (body : Option Json) (n : Nat)
    (hw : s.ctx.Writer.unwritten = true) :
    (handleUpdateBooks env s).reply = some (200, [H "Updated successfully"]) ∧
    (handleUpdateBooks env s).state.db = s.db ∧
    (handleUpdateBooks env s).state.issued = s.issued ∧
    serveAll (List.replicate n ⟨.updateBooks, body, env⟩) db = db ∧
    (serve ⟨.updateBooks, body, env⟩
        (serveAll (List.replicate n ⟨.updateBooks, body, env⟩) db)).reply
      = some (200, [H "Updated successfully"]) := by
  have hrep : serveAll (List.replicate n ⟨.updateBooks, body, env⟩) db = db := by
    induction n with
    | zero => rfl
    | succ k ih =>
      rw [List.replicate_succ, serveAll, serve_eq]
      exact ih
  refine ⟨?_, rfl, rfl, hrep, ?_⟩
  · unfold handleUpdateBooks
    rw [reply_returned, finish_JSON _ _ _ hw (by decide) (by decide)]
  · rw [hrep, serve_eq]
    show (handleUpdateBooks env _).reply = _
    unfold handleUpdateBooks
    rw [reply_returned, finish_JSON _ _ _ (routed_unwritten _ _) (by decide) (by decide)]

/-- Witness of C9: a body that is not JSON, a failing store environment, three
repetitions. -/
theorem handleUpdateBooks_noop_witness :
    (handleUpdateBooks (failing "connection refused")
        (entered "PUT" none [] duneStore)).reply
      = some (200, [H "Updated successfully"]) ∧
    (handleUpdateBooks (failing "connection refused")
        (entered "PUT" none [] duneStore)).state.db = (entered "PUT" none [] duneStore).db ∧
    (handleUpdateBooks (failing "connection refused")
        (entered "PUT" none [] duneStore)).state.issued
      = (entered "PUT" none [] duneStore).issued ∧
    serveAll (List.replicate 3 ⟨.updateBooks, none, failing "connection refused"⟩) duneStore
      = duneStore ∧
    (serve ⟨.updateBooks, none, failing "connection refused"⟩
        (serveAll (List.replicate 3 ⟨.updateBooks, none, failing "connection refused"⟩)
          duneStore)).reply
      = some (200, [H "Updated successfully"]) :=
  handleUpdateBooks_noop (failing "connection refused") (entered "PUT" none [] duneStore)
    duneStore none 3 rfl

/-- C10: when the store fails in `handleFetchBooks` (the query fails, or a row
scan fails, or the rows scan and the iteration then reports an error), the run
ends in a process exit with the error on the diagnostic output; the context is
the one the handler was entered with, so nothing of a response was written, and
the client gets no response: neither the 500 that follows `log.Fatal` in the
source nor a 200. -/
theorem handleFetchBooks_fatal (env : Env) (s : State) (e : String)
    (hw : s.ctx.Writer.unwritten = true)
    (hfail : s.db.selectBooks env = .error e ∨
      ∃ rows, s.db.selectBooks env = .ok rows ∧
        (scanAll rows.pending .nil = .error e ∨
          ((∃ books, scanAll rows.pending .nil = .ok books) ∧ rows.err = some e))) :
    handleFetchBooks env s
      = .exited { s with issued := s.issued ++ [.selectBooks], out := s.out ++ [e] } ∧
    (handleFetchBooks env s).response = none ∧
    (handleFetchBooks env s).reply = none := by
  obtain ⟨hs, _⟩ := (unwritten_iff _).1 hw
  have hrun : handleFetchBooks env s
      = .exited { s with issued := s.issued ++ [.selectBooks], out := s.out ++ [e] } := by
    rcases hfail with hq | ⟨rows, hq, hscan | ⟨⟨books, hscan⟩, herr⟩⟩
    · simp [handleFetchBooks, hq]
    · simp [handleFetchBooks, hq, hscan]
    · simp [handleFetchBooks, hq, hscan, herr]
  have hresp : (handleFetchBooks env s).response = none := by
    rw [hrun]
    simp only [Outcome.response, hs]
  refine ⟨hrun, hresp, ?_⟩
  rw [Outcome.reply, hresp]
  rfl

/-- Witness of C10: the three ways the store fails: the query is refused; the only
row has a NULL title, which cannot be scanned; the iteration breaks after the
first row. -/
theorem handleFetchBooks_fatal_witness :
    (handleFetchBooks (failing "connection refused") (entered "GET" none [] duneStore)
        = .exited { entered "GET" none [] duneStore with
            issued := (entered "GET" none [] duneStore).issued ++ [.selectBooks],
            out := (entered "GET" none [] duneStore).out ++ ["connection refused"] } ∧
      (handleFetchBooks (failing "connection refused")
        (entered "GET" none [] duneStore)).response = none ∧
      (handleFetchBooks (failing "connection refused")
        (entered "GET" none [] duneStore)).reply = none) ∧
    (handleFetchBooks noFault (entered "GET" none [] nullTitleStore)
        = .exited { entered "GET" none [] nullTitleStore with
            issued := (entered "GET" none [] nullTitleStore).issued ++ [.selectBooks],
            out := (entered "GET" none [] nullTitleStore).out
              ++ ["sql: Scan error: converting NULL to string is unsupported"] } ∧
      (handleFetchBooks noFault (entered "GET" none [] nullTitleStore)).response = none ∧
      (handleFetchBooks noFault (entered "GET" none [] nullTitleStore)).reply = none) ∧
    (handleFetchBooks ⟨none, some (1, "unexpected EOF")⟩ (entered "GET" none [] duneStore)
        = .exited { entered "GET" none [] duneStore with
            issued := (entered "GET" none [] duneStore).issued ++ [.selectBooks],
            out := (entered "GET" none [] duneStore).out ++ ["unexpected EOF"] } ∧
      (handleFetchBooks ⟨none, some (1, "unexpected EOF")⟩
        (entered "GET" none [] duneStore)).response = none ∧
      (handleFetchBooks ⟨none, some (1, "unexpected EOF")⟩
        (entered "GET" none [] duneStore)).reply = none) :=
  ⟨handleFetchBooks_fatal (failing "connection refused") (entered "GET" none [] duneStore)
      "connection refused" rfl (Or.inl rfl),
   handleFetchBooks_fatal noFault (entered "GET" none [] nullTitleStore)
      "sql: Scan error: converting NULL to string is unsupported" rfl
      (Or.inr ⟨⟨nullTitleStore.books, none⟩, rfl, Or.inl rfl⟩),
   handleFetchBooks_fatal ⟨none, some (1, "unexpected EOF")⟩
      (entered "GET" none [] duneStore) "unexpected EOF" rfl
      (Or.inr ⟨⟨duneStore.books.take 1, some "unexpected EOF"⟩, rfl,
        Or.inr ⟨⟨.of [⟨1, "Dune", "Herbert"⟩], rfl⟩, rfl⟩⟩)⟩

end Books
